import Mathlib

/-!
Verification of the room-based dungeon-shooter core against its
natural-language specification.

The repository holds four near-duplicate variants of the same game core:
`src/n.js`, `src/n.mjs`, `src/unnamed/part_000`, and `src/unnamed/part_001`
(which itself contains two programs: the "FREEDOM" roguelike and a
shop/heal/armory variant of `n.js`).  Each namespace below is a shallow
embedding of one variant, translated function by function from that file:

* `Js`          — helpers shared verbatim by the variants (the RNG wrappers
                  `randf`/`randi`/`chance`, `clamp`/`lerp`/`dist2`, door
                  direction bookkeeping, association-list state).
* `Ring`        — the deterministic special-room placement of the
                  shop/heal/armory variant (`part_001`, second program):
                  `isShopCoord`, `isHealCoord`, `isArmoryCoord`,
                  `assignRoomKind`.
* `Nmjs`        — `src/n.mjs`: room graph, door/transition state machine,
                  room population, clear-condition check, per-tick `update`.
* `PartZero`    — `src/unnamed/part_000`: the room cache (`stashRoom` /
                  `loadRoom`).
* `Freedom`     — `src/unnamed/part_001`, first program: bullets with pierce,
                  the locked-treasure key gate, `damagePlayer`.

Modelling conventions:
* JS numbers are embedded as `ℚ`; `(x)|0` truncation is `Js.jsTrunc`.
* `Math.random()` is an explicit stream of draws (`List ℚ`, head consumed
  first, `0` once exhausted); the JS functions that call it thread the stream.
* The transcendental functions `Math.cos/sin/sqrt/atan2/pow` and the constant
  `TAU = 2π` have no exact rational meaning; they are abstracted as a
  parameter record `Js.JsMath`, the same parameter for every call site, so
  statements compare executions of one and the same program.
* Mutable heaps of rooms/nodes keyed by `"x,y"` strings are association
  lists keyed by `ℤ × ℤ`; object mutation is functional update in place.
-/

namespace Js

/-- The four door directions N/S/W/E. -/
inductive Dir
| N
| S
| W
| E
deriving DecidableEq

/-- A per-direction boolean record, used for both `doorsOpen` and
`neighbors` objects `{N:…, S:…, W:…, E:…}` of the source. -/
structure Doors where
  n : Bool
  s : Bool
  w : Bool
  e : Bool
deriving DecidableEq

def Doors.get (d : Doors) : Dir → Bool
| Dir.N => d.n
| Dir.S => d.s
| Dir.W => d.w
| Dir.E => d.e

def Doors.setD (d : Doors) : Dir → Bool → Doors
| Dir.N, b => { d with n := b }
| Dir.S, b => { d with s := b }
| Dir.W, b => { d with w := b }
| Dir.E, b => { d with e := b }

/-- Association-list lookup on room keys; the JS dictionaries
`state.map` / `state.rooms` keyed by `roomKey(x, y)`. -/
def alookup {β : Type} (l : List ((ℤ × ℤ) × β)) (k : ℤ × ℤ) : Option β :=
  match l with
  | [] => none
  | (a, b) :: t => if a = k then some b else alookup t k

/-- Update the entry at key `k` in place (JS object mutation through a
reference obtained from the dictionary). -/
def amap {β : Type} (l : List ((ℤ × ℤ) × β)) (k : ℤ × ℤ) (f : β → β) :
    List ((ℤ × ℤ) × β) :=
  match l with
  | [] => []
  | (a, b) :: t => if a = k then (a, f b) :: t else (a, b) :: amap t k f

theorem alookup_amap {β : Type} (l : List ((ℤ × ℤ) × β)) (k k' : ℤ × ℤ)
    (f : β → β) :
    alookup (amap l k f) k' =
      if k' = k then (alookup l k').map f else alookup l k' := by
  induction l with
  | nil => by_cases h : k' = k <;> simp [alookup, amap, h]
  | cons p t ih =>
    obtain ⟨a, b⟩ := p
    by_cases hak : a = k
    · subst hak
      by_cases hk' : k' = a
      · subst hk'; simp [amap, alookup]
      · have hak' : ¬ a = k' := fun h => hk' (Eq.symm h)
        simp [amap, alookup, hak', hk']
    · by_cases hak' : a = k'
      · have hk'k : ¬ k' = k := fun h => hak (hak'.trans h)
        simp [amap, alookup, hak, hak', hk'k]
      · by_cases hk : k' = k
        · subst hk
          simp [amap, alookup, hak, hak', ih]
        · simp [amap, alookup, hak, hak', hk, ih]

theorem alookup_amap_self {β : Type} (l : List ((ℤ × ℤ) × β)) (k : ℤ × ℤ)
    (f : β → β) :
    alookup (amap l k f) k = (alookup l k).map f := by
  simp [alookup_amap]

theorem alookup_amap_ne {β : Type} (l : List ((ℤ × ℤ) × β)) (k k' : ℤ × ℤ)
    (f : β → β) (h : k' ≠ k) :
    alookup (amap l k f) k' = alookup l k' := by
  simp [alookup_amap, h]

/-- JS `(q) | 0`: truncation toward zero (`Int.div` truncates toward zero,
and a rational's denominator is positive). -/
def jsTrunc (q : ℚ) : ℤ := q.num / (q.den : ℤ)

/-- One draw of `Math.random()`: the head of the stream (`0` if exhausted). -/
def randf (r : List ℚ) : ℚ × List ℚ := (r.headD 0, r.tail)

/-- `randi(n) = (Math.random() * n) | 0` (the draw is in `[0,1)`, so the
truncation is a floor and the result a natural number below `n`). -/
def randi (n : ℕ) (r : List ℚ) : ℕ × List ℚ :=
  ((jsTrunc (r.headD 0 * (n : ℚ))).toNat, r.tail)

/-- `chance(p) = Math.random() < p`. -/
def chance (p : ℚ) (r : List ℚ) : Bool × List ℚ :=
  (decide (r.headD 0 < p), r.tail)

/-- `clamp(v, a, b) = v < a ? a : (v > b ? b : v)`. -/
def clamp (v a b : ℚ) : ℚ := if v < a then a else if v > b then b else v

/-- `lerp(a, b, t) = a + (b - a) * t`. -/
def lerp (a b t : ℚ) : ℚ := a + (b - a) * t

/-- `dist2(ax, ay, bx, by)`: squared distance. -/
def dist2 (ax ay bx bz : ℚ) : ℚ := (ax - bx) * (ax - bx) + (ay - bz) * (ay - bz)

/-- The transcendental pieces of `Math` (and `TAU = 2π`), which have no exact
rational embedding: abstracted as one parameter record, passed unchanged to
every call site so that all statements speak about a single program. -/
structure JsMath where
  cos : ℚ → ℚ
  sin : ℚ → ℚ
  sqrt : ℚ → ℚ
  atan2 : ℚ → ℚ → ℚ
  powq : ℚ → ℚ → ℚ
  tau : ℚ

/-- A 2-vector, the `{x, y}` object returned by `norm`. -/
structure V2 where
  x : ℚ
  y : ℚ
deriving DecidableEq

/-- `norm(x, y)`: `l = Math.sqrt(x*x + y*y) || 1; {x: x/l, y: y/l}`. -/
def norm (M : JsMath) (x y : ℚ) : V2 :=
  let l0 := M.sqrt (x * x + y * y)
  let l := if l0 = 0 then 1 else l0
  ⟨x / l, y / l⟩

end Js

namespace Ring

/-!
Deterministic special-room placement of the shop/heal/armory variant
(`src/unnamed/part_001`, second program, lines 2477–2511 and 2647–2654).
`isShopCoord` is textually identical in `src/n.mjs` (178–186) and
`src/unnamed/part_000` (178–187).
-/

/-- `d = Math.abs(x) + Math.abs(y)`: Manhattan depth of a grid coordinate. -/
def ringDepth (x y : ℤ) : ℕ := x.natAbs + y.natAbs

/-- `isShopCoord` : one designated coordinate per ring, cycling through the
four cardinal extremes by `d mod 4`. -/
def isShopCoord (x y : ℤ) : Bool :=
  let d := ringDepth x y
  if d < 1 then false
  else
    let m := d % 4
    if m = 0 then decide (x = (d : ℤ) ∧ y = 0)
    else if m = 1 then decide (x = 0 ∧ y = (d : ℤ))
    else if m = 2 then decide (x = -(d : ℤ) ∧ y = 0)
    else decide (x = 0 ∧ y = -(d : ℤ))

/-- `isHealCoord` : the quadrant-wise "diagonal-ish" pick
(`(d-1, 1)`, `(-1, d-1)`, `(-(d-1), -1)`, `(1, -(d-1))`), testing the
quadrants in the source's order. -/
def isHealCoord (x y : ℤ) : Bool :=
  let d := ringDepth x y
  if d < 2 then false
  else if 0 ≤ x ∧ 0 ≤ y then decide (x = (d : ℤ) - 1 ∧ y = 1)
  else if x ≤ 0 ∧ 0 ≤ y then decide (x = -1 ∧ y = (d : ℤ) - 1)
  else if x ≤ 0 ∧ y ≤ 0 then decide (x = -((d : ℤ) - 1) ∧ y = -1)
  else decide (x = 1 ∧ y = -((d : ℤ) - 1))

/-- `isArmoryCoord` : sparse deterministic hash, requiring depth at least 3
and excluding shop/heal cells. -/
def isArmoryCoord (x y : ℤ) : Bool :=
  let d := ringDepth x y
  if d < 3 then false
  else
    let h := x * 31 + y * 17 + (d : ℤ) * 13
    let h2 := (h % 11 + 11) % 11
    if h2 ≠ 0 then false
    else if isShopCoord x y || isHealCoord x y then false
    else true

/-- `assignRoomKind` of the shop/heal/armory variant (node identity `"0,0"`
is the coordinate `(0,0)`). -/
def assignRoomKind (x y : ℤ) : String :=
  if x = 0 ∧ y = 0 then "start"
  else if isShopCoord x y then "shop"
  else if isHealCoord x y then "heal"
  else if isArmoryCoord x y then "armory"
  else "combat"

/-- The one coordinate of ring `d` the shop cycle picks. -/
def shopSlot (d : ℕ) : ℤ × ℤ :=
  if d % 4 = 0 then ((d : ℤ), 0)
  else if d % 4 = 1 then (0, (d : ℤ))
  else if d % 4 = 2 then (-(d : ℤ), 0)
  else (0, -(d : ℤ))

/-- The four coordinates of ring `d` (one per quadrant) that `isHealCoord`
accepts. -/
def healSlots (d : ℕ) : List (ℤ × ℤ) :=
  [((d : ℤ) - 1, 1), (-1, (d : ℤ) - 1), (-((d : ℤ) - 1), -1), (1, -((d : ℤ) - 1))]

theorem isShopCoord_iff (x y : ℤ) :
    isShopCoord x y = true ↔
      1 ≤ ringDepth x y ∧ (x, y) = shopSlot (ringDepth x y) := by
  by_cases h1 : ringDepth x y < 1
  · have h1' : ¬ 1 ≤ ringDepth x y := by omega
    simp [isShopCoord, h1, h1']
  · have h1' : 1 ≤ ringDepth x y := by omega
    have h4 : ringDepth x y % 4 = 0 ∨ ringDepth x y % 4 = 1 ∨
        ringDepth x y % 4 = 2 ∨ ringDepth x y % 4 = 3 := by omega
    rcases h4 with h | h | h | h <;>
      simp [isShopCoord, shopSlot, h1, h1', h, Prod.ext_iff]

theorem isHealCoord_iff (x y : ℤ) :
    isHealCoord x y = true ↔
      2 ≤ ringDepth x y ∧ (x, y) ∈ healSlots (ringDepth x y) := by
  by_cases h2 : ringDepth x y < 2
  · have h2' : ¬ 2 ≤ ringDepth x y := by omega
    simp [isHealCoord, h2, h2']
  · have h2' : 2 ≤ ringDepth x y := by omega
    have hd : 2 ≤ ringDepth x y := h2'
    by_cases hq1 : 0 ≤ x ∧ 0 ≤ y
    · simp only [isHealCoord, healSlots, if_neg h2, if_pos hq1,
        List.mem_cons, List.mem_singleton, List.not_mem_nil, or_false,
        decide_eq_true_eq, Prod.mk.injEq]
      constructor
      · rintro ⟨hx, hy⟩; exact ⟨h2', Or.inl ⟨hx, hy⟩⟩
      · rintro ⟨-, (⟨hx, hy⟩ | ⟨hx, hy⟩ | ⟨hx, hy⟩ | ⟨hx, hy⟩)⟩ <;>
          constructor <;> omega
    · by_cases hq2 : x ≤ 0 ∧ 0 ≤ y
      · simp only [isHealCoord, healSlots, if_neg h2, if_neg hq1, if_pos hq2,
          List.mem_cons, List.mem_singleton, List.not_mem_nil, or_false,
          decide_eq_true_eq, Prod.mk.injEq]
        constructor
        · rintro ⟨hx, hy⟩; exact ⟨h2', Or.inr (Or.inl ⟨hx, hy⟩)⟩
        · rintro ⟨-, (⟨hx, hy⟩ | ⟨hx, hy⟩ | ⟨hx, hy⟩ | ⟨hx, hy⟩)⟩ <;>
            constructor <;> omega
      · by_cases hq3 : x ≤ 0 ∧ y ≤ 0
        · simp only [isHealCoord, healSlots, if_neg h2, if_neg hq1, if_neg hq2,
            if_pos hq3, List.mem_cons, List.mem_singleton, List.not_mem_nil,
            or_false, decide_eq_true_eq, Prod.mk.injEq]
          constructor
          · rintro ⟨hx, hy⟩; exact ⟨h2', Or.inr (Or.inr (Or.inl ⟨hx, hy⟩))⟩
          · rintro ⟨-, (⟨hx, hy⟩ | ⟨hx, hy⟩ | ⟨hx, hy⟩ | ⟨hx, hy⟩)⟩ <;>
              constructor <;> omega
        · simp only [isHealCoord, healSlots, if_neg h2, if_neg hq1, if_neg hq2,
            if_neg hq3, List.mem_cons, List.mem_singleton, List.not_mem_nil,
            or_false, decide_eq_true_eq, Prod.mk.injEq]
          constructor
          · rintro ⟨hx, hy⟩; exact ⟨h2', Or.inr (Or.inr (Or.inr ⟨hx, hy⟩))⟩
          · rintro ⟨-, (⟨hx, hy⟩ | ⟨hx, hy⟩ | ⟨hx, hy⟩ | ⟨hx, hy⟩)⟩ <;>
              constructor <;> omega

theorem isArmoryCoord_iff (x y : ℤ) :
    isArmoryCoord x y = true ↔
      3 ≤ ringDepth x y ∧
        (x * 31 + y * 17 + (ringDepth x y : ℤ) * 13) % 11 = 0 ∧
        isShopCoord x y = false ∧ isHealCoord x y = false := by
  by_cases h3 : ringDepth x y < 3
  · have h3' : ¬ 3 ≤ ringDepth x y := by omega
    simp [isArmoryCoord, h3, h3']
  · have h3' : 3 ≤ ringDepth x y := by omega
    by_cases hh : (x * 31 + y * 17 + (ringDepth x y : ℤ) * 13) % 11 = 0
    · have hne : ¬ ((x * 31 + y * 17 + (ringDepth x y : ℤ) * 13) % 11 + 11)
          % 11 ≠ 0 := by omega
      by_cases hs : isShopCoord x y
      · simp [isArmoryCoord, h3, hne, hs]
      · by_cases hl : isHealCoord x y
        · simp [isArmoryCoord, h3, hne, hs, hl]
        · rw [Bool.not_eq_true] at hs hl
          simp only [isArmoryCoord]
          rw [if_neg h3, if_neg hne, hs, hl]
          simp [h3', hh]
    · have hne : ((x * 31 + y * 17 + (ringDepth x y : ℤ) * 13) % 11 + 11)
          % 11 ≠ 0 := by omega
      simp [isArmoryCoord, h3, hne, hh]

/-- Modelled from the spec (§4.1 `classify`), amended where the code forces
it: the spec's Heal rule ("one Heal per ring offset from the shop slot")
becomes the four quadrant picks per ring that `isHealCoord` actually accepts,
and the spec's Armory rule (hash `(31x+17y+13d) mod 11 == 0`, excluding
claimed cells) additionally requires depth at least 3. -/
def specRoomKindAmended (x y : ℤ) : String :=
  let d := ringDepth x y
  if x = 0 ∧ y = 0 then "start"
  else if 1 ≤ d ∧ (x, y) = shopSlot d then "shop"
  else if 2 ≤ d ∧ (x, y) ∈ healSlots d then "heal"
  else if 3 ≤ d ∧ (x * 31 + y * 17 + (d : ℤ) * 13) % 11 = 0 then "armory"
  else "combat"

end Ring

/-- C7 counterexample: on depth ring 2 the classifier marks both `(1,1)` and
`(-1,1)` (two distinct coordinates of the same ring) as Heal, so "at most one
coordinate per depth ring is classified as Heal" fails at ring 2. -/
theorem heal_ring_two_has_two_heal_rooms :
    Ring.assignRoomKind 1 1 = "heal" ∧ Ring.assignRoomKind (-1) 1 = "heal"
    ∧ Ring.ringDepth 1 1 = 2 ∧ Ring.ringDepth (-1) 1 = 2
    ∧ decide (((1 : ℤ), (1 : ℤ)) = ((-1 : ℤ), (1 : ℤ))) = false := by
  decide

/-- C7 (amended): at most one coordinate per depth ring is Shop (any two
same-ring shop coordinates are equal); the kind Start is assigned exactly at
`(0,0)`; and Heal is assigned to at most the four per-ring quadrant picks
(so at most four per ring, not at most one). -/
theorem shop_unique_heal_quadrant_start_only_origin :
    (∀ x y u v : ℤ, Ring.ringDepth x y = Ring.ringDepth u v →
      Ring.isShopCoord x y = true → Ring.isShopCoord u v = true →
      x = u ∧ y = v)
    ∧ (∀ x y : ℤ, Ring.assignRoomKind x y = "start" ↔ x = 0 ∧ y = 0)
    ∧ (∀ x y : ℤ, Ring.isHealCoord x y = true →
        (x, y) ∈ Ring.healSlots (Ring.ringDepth x y)) := by
  refine ⟨?_, ?_, ?_⟩
  · intro x y u v hring hx hu
    have h1 := (Ring.isShopCoord_iff x y).mp hx
    have h2 := (Ring.isShopCoord_iff u v).mp hu
    rw [hring] at h1
    have : (x, y) = (u, v) := by rw [h1.2, h2.2]
    exact ⟨congrArg Prod.fst this, congrArg Prod.snd this⟩
  · intro x y
    by_cases h0 : x = 0 ∧ y = 0
    · simp [Ring.assignRoomKind, h0]
    · simp only [Ring.assignRoomKind, if_neg h0]
      constructor
      · intro hcontra
        exfalso
        split_ifs at hcontra <;> revert hcontra <;> decide
      · intro h; exact absurd h h0
  · intro x y h
    exact ((Ring.isHealCoord_iff x y).mp h).2

/-- C7 witness: the uniqueness part applied to the concrete ring-1 shop
coordinate `(0,1)`, the start part at `(0,0)`, and the heal part at `(1,1)`. -/
theorem shop_unique_heal_quadrant_start_only_origin_witness :
    ((0 : ℤ) = 0 ∧ (1 : ℤ) = 1)
    ∧ (Ring.assignRoomKind 0 0 = "start" ↔ (0 : ℤ) = 0 ∧ (0 : ℤ) = 0)
    ∧ ((1 : ℤ), (1 : ℤ)) ∈ Ring.healSlots (Ring.ringDepth 1 1) := by
  refine ⟨shop_unique_heal_quadrant_start_only_origin.1 0 1 0 1 rfl
      (by decide) (by decide),
    shop_unique_heal_quadrant_start_only_origin.2.1 0 0,
    shop_unique_heal_quadrant_start_only_origin.2.2 1 1 (by decide)⟩

/-- C8 counterexample: the cell `(1,0)` has depth 1, satisfies the armory
hash (`31·1 + 17·0 + 13·1 = 44 ≡ 0 mod 11`), and is claimed by nothing
(not Start, not Shop, not Heal), yet the classifier assigns Combat, not
Armory — the code additionally requires depth ≥ 3 for Armory. -/
theorem armory_hash_cell_without_depth_three_is_combat :
    Ring.assignRoomKind 1 0 = "combat"
    ∧ ((1 : ℤ) * 31 + (0 : ℤ) * 17 + (Ring.ringDepth 1 0 : ℤ) * 13) % 11 = 0
    ∧ Ring.isShopCoord 1 0 = false ∧ Ring.isHealCoord 1 0 = false
    ∧ decide (((1 : ℤ), (0 : ℤ)) = ((0 : ℤ), (0 : ℤ))) = false := by
  decide

/-- C8 (amended): the classifier agrees pointwise with the spec's rule once
two corrections are made — Heal is the four per-ring quadrant picks (depth ≥
2), and Armory requires depth ≥ 3 on top of the hash and the
not-already-claimed condition; every remaining non-special cell is Combat. -/
theorem assignRoomKind_matches_amended_spec :
    ∀ x y : ℤ, Ring.assignRoomKind x y = Ring.specRoomKindAmended x y := by
  intro x y
  simp only [Ring.assignRoomKind, Ring.specRoomKindAmended]
  by_cases h0 : x = 0 ∧ y = 0
  · rw [if_pos h0, if_pos h0]
  · rw [if_neg h0, if_neg h0]
    by_cases hs : Ring.isShopCoord x y = true
    · rw [if_pos hs, if_pos ((Ring.isShopCoord_iff x y).mp hs)]
    · have hs' : ¬ (1 ≤ Ring.ringDepth x y ∧
          (x, y) = Ring.shopSlot (Ring.ringDepth x y)) := by
        intro hc; exact hs ((Ring.isShopCoord_iff x y).mpr hc)
      rw [if_neg hs, if_neg hs']
      by_cases hl : Ring.isHealCoord x y = true
      · rw [if_pos hl, if_pos ((Ring.isHealCoord_iff x y).mp hl)]
      · have hl' : ¬ (2 ≤ Ring.ringDepth x y ∧
            (x, y) ∈ Ring.healSlots (Ring.ringDepth x y)) := by
          intro hc; exact hl ((Ring.isHealCoord_iff x y).mpr hc)
        rw [if_neg hl, if_neg hl']
        by_cases ha : Ring.isArmoryCoord x y = true
        · have hc := (Ring.isArmoryCoord_iff x y).mp ha
          rw [if_pos ha, if_pos ⟨hc.1, hc.2.1⟩]
        · have ha' : ¬ (3 ≤ Ring.ringDepth x y ∧
              (x * 31 + y * 17 + (Ring.ringDepth x y : ℤ) * 13) % 11 = 0) := by
            intro hc
            refine ha ((Ring.isArmoryCoord_iff x y).mpr ⟨hc.1, hc.2, ?_, ?_⟩)
            · exact Bool.not_eq_true _ ▸ hs
            · exact Bool.not_eq_true _ ▸ hl
          rw [if_neg ha, if_neg ha']

namespace Nmjs

/-!
Shallow embedding of `src/n.mjs`.  Constants: `TILE = 40`, `ROOM_TW = 21`,
`ROOM_TH = 13`, `ROOM_W = 840`, `ROOM_H = 520`, `DOOR_SPAN = 44`,
`DOOR_THICK = 26`, `VIEW_W = 960`, `VIEW_H = 540`, `MAX_DEPTH = 40`
(the viewport is modelled at its initial size).
-/

def ROOM_W : ℚ := 840
def ROOM_H : ℚ := 520

/-- A node of `state.map` (n.mjs lines 149–163; the unused `flags` object is
omitted). -/
structure Node where
  x : ℤ
  y : ℤ
  depth : ℕ
  kind : String
  seen : Bool
  cleared : Bool
deriving DecidableEq

/-- A room of `state.rooms` (n.mjs lines 165–175): tile grid `g` (empty list
until generated, for the source's `null`), door-open and neighbor flags. -/
structure Room where
  g : List ℕ
  doorsOpen : Js.Doors
  neighbors : Js.Doors
deriving DecidableEq

/-- An enemy (n.mjs `spawnEnemy`/`spawnBoss`); boss-only fields default to
zero/empty on normal enemies, matching absent JS properties never read. -/
structure Enemy where
  etype : String
  x : ℚ
  y : ℚ
  r : ℚ
  hp : ℚ
  vx : ℚ
  vy : ℚ
  t : ℚ
  fireCD : ℚ
  phase : ℕ
  patternId : ℕ
  patternName : String
  spinA : ℚ
deriving DecidableEq

/-- A bullet (n.mjs `spawnBullet`); the source field `from` is `src` here
(`from` is reserved in Lean). -/
structure Bullet where
  x : ℚ
  y : ℚ
  vx : ℚ
  vy : ℚ
  r : ℚ
  t : ℚ
  dmg : ℚ
  src : String
  kind : String
deriving DecidableEq

structure Pickup where
  x : ℚ
  y : ℚ
  t : String
  v : ℚ
  r : ℚ
deriving DecidableEq

structure Fx where
  x : ℚ
  y : ℚ
  vx : ℚ
  vy : ℚ
  t : ℚ
deriving DecidableEq

structure Weapon where
  id : ℕ
  name : String
  unlocked : Bool
  dmg : ℚ
  fire : ℚ
  speed : ℚ
  spread : ℚ
  pellets : ℕ
  burstStep : ℚ
deriving DecidableEq

structure ShopItem where
  key : ℕ
  label : String
  cost : ℚ
  itype : String
  weaponId : ℕ
  amount : ℚ
  desc : String
deriving DecidableEq

structure Player where
  x : ℚ
  y : ℚ
  r : ℚ
  hp : ℚ
  hpMax : ℚ
  invT : ℚ
  dashT : ℚ
  dashCD : ℚ
  vx : ℚ
  vy : ℚ
  speed : ℚ
  weapon : ℕ
  fireCD : ℚ
  burstQ : ℚ
  burstCD : ℚ
deriving DecidableEq

structure Cam where
  x : ℚ
  y : ℚ
  shake : ℚ
  shakeT : ℚ
deriving DecidableEq

/-- The whole mutable game state of n.mjs (`state`, `player`, the `WEAPONS`
table whose `unlocked` flags mutate, and the `VIEW_OX`/`VIEW_OY` globals). -/
structure St where
  paused : Bool
  shopOpen : Bool
  msg : String
  msgT : ℚ
  coins : ℚ
  roomId : ℤ × ℤ
  cam : Cam
  map : List ((ℤ × ℤ) × Node)
  rooms : List ((ℤ × ℤ) × Room)
  enemies : List Enemy
  bullets : List Bullet
  pickups : List Pickup
  fx : List Fx
  weapons : List Weapon
  player : Player
  viewOX : ℚ
  viewOY : ℚ
deriving DecidableEq

/-- The processed per-tick input (pressed-this-tick flags, held keys, mouse);
what `keysPressed`/`keys`/`mouse` provide to `update`. -/
structure Input where
  escP : Bool
  rP : Bool
  fP : Bool
  qP : Bool
  eP : Bool
  spaceP : Bool
  shiftP : Bool
  oneP : Bool
  twoP : Bool
  threeP : Bool
  fourP : Bool
  fiveP : Bool
  sixP : Bool
  sevenP : Bool
  aH : Bool
  dH : Bool
  wH : Bool
  sH : Bool
  leftH : Bool
  rightH : Bool
  upH : Bool
  downH : Bool
  shiftH : Bool
  mouseX : ℚ
  mouseY : ℚ
  mouseDown : Bool
deriving DecidableEq

def freshNode (id : ℤ × ℤ) : Node :=
  { x := id.1, y := id.2, depth := id.1.natAbs + id.2.natAbs,
    kind := "combat", seen := false, cleared := false }

/-- `ensureNode(id)` (n.mjs 149–163). -/
def ensureNode (s : St) (id : ℤ × ℤ) : St :=
  match Js.alookup s.map id with
  | some _ => s
  | none => { s with map := (id, freshNode id) :: s.map }

/-- The room `ensureRoom` creates: all doors open, no neighbors, no tiles. -/
def freshRoom : Room :=
  { g := [], doorsOpen := ⟨true, true, true, true⟩,
    neighbors := ⟨false, false, false, false⟩ }

/-- `ensureRoom(id)` (n.mjs 165–175). -/
def ensureRoom (s : St) (id : ℤ × ℤ) : St :=
  match Js.alookup s.rooms id with
  | some _ => s
  | none => { s with rooms := (id, freshRoom) :: s.rooms }

/-- Read the node at `id` (callers always `ensureNode` first; the default is
exactly the node `ensureNode` would create). -/
def nodeAt (s : St) (id : ℤ × ℤ) : Node :=
  (Js.alookup s.map id).getD (freshNode id)

def roomAt (s : St) (id : ℤ × ℤ) : Room :=
  (Js.alookup s.rooms id).getD freshRoom

/-- `assignRoomKind(node)` (n.mjs 188–192): start at the origin, shop on the
ring slots, combat otherwise. -/
def assignRoomKind (n : Node) : String :=
  if n.x = 0 ∧ n.y = 0 then "start"
  else if Ring.isShopCoord n.x n.y then "shop"
  else "combat"

/-- `shouldSpawnBoss(node)` (n.mjs 196–201). -/
def shouldSpawnBoss (n : Node) : Bool :=
  if n.kind ≠ "combat" then false
  else if n.depth = 0 then false
  else if n.depth % 10 ≠ 0 then false
  else true

def tileIndex (tx ty : ℕ) : ℕ := ty * 21 + tx

/-- The wall/floor base grid (n.mjs 218–223). -/
def baseGrid : List ℕ :=
  (List.range (21 * 13)).map (fun i =>
    if i % 21 = 0 ∨ i / 21 = 0 ∨ i % 21 = 20 ∨ i / 21 = 12 then 0 else 1)

/-- Combat-room pit scattering (n.mjs 226–231). -/
def pitsLoop (g : List ℕ) (r : List ℚ) : List ℕ × List ℚ :=
  (List.range 18).foldl (fun gr _ =>
    let (px, r) := Js.randi 17 gr.2
    let (py, r) := Js.randi 9 r
    let (c, r) := Js.chance (22/100) r
    (if c then gr.1.set (tileIndex (2 + px) (2 + py)) 2 else gr.1, r)) (g, r)

/-- Peaceful-room decor scattering (n.mjs 232–237). -/
def decorLoop (g : List ℕ) (r : List ℚ) : List ℕ × List ℚ :=
  (List.range 16).foldl (fun gr _ =>
    let (sx, r) := Js.randi 17 gr.2
    let (sy, r) := Js.randi 9 r
    let (c, r) := Js.chance (35/100) r
    (if c then gr.1.set (tileIndex (2 + sx) (2 + sy)) 5 else gr.1, r)) (g, r)

/-- Pillar scattering over interior floor tiles (n.mjs 240–247); the draw is
consumed only on floor tiles, as in the source. -/
def pillarsLoop (g : List ℕ) (density : ℚ) (r : List ℚ) : List ℕ × List ℚ :=
  (List.range 9).foldl (fun gr yi =>
    (List.range 17).foldl (fun gr xi =>
      if gr.1.getD (tileIndex (2 + xi) (2 + yi)) 0 = 1 then
        let (c, r) := Js.chance density gr.2
        (if c then gr.1.set (tileIndex (2 + xi) (2 + yi)) 4 else gr.1, r)
      else gr) gr) (g, r)

/-- Clear the 3×3 spawn patch around `(cx, cy) = (10, 6)` (n.mjs 250–256). -/
def clearCenter (g : List ℕ) : List ℕ :=
  (List.range 3).foldl (fun g yi =>
    (List.range 3).foldl (fun g xi =>
      g.set (tileIndex (9 + xi) (5 + yi)) 1) g) g

/-- `carveDoor(dir)` (n.mjs 259–266): `mx = 10`, `my = 6`. -/
def carveDoor (g : List ℕ) : Js.Dir → List ℕ
| Js.Dir.N => (g.set (tileIndex 10 0) 1).set (tileIndex 10 1) 3
| Js.Dir.S => (g.set (tileIndex 10 12) 1).set (tileIndex 10 11) 3
| Js.Dir.W => (g.set (tileIndex 0 6) 1).set (tileIndex 1 6) 3
| Js.Dir.E => (g.set (tileIndex 20 6) 1).set (tileIndex 19 6) 3

/-- `genRoomTiles(node)` (n.mjs 213–275). -/
def genRoomTiles (s : St) (id : ℤ × ℤ) (r : List ℚ) : St × List ℚ :=
  let s := ensureRoom s id
  let kind := (nodeAt s id).kind
  let g := baseGrid
  let (g, r) := if kind = "combat" then pitsLoop g r else decorLoop g r
  let density : ℚ := if kind = "combat" then 45/1000 else 20/1000
  let (g, r) := pillarsLoop g density r
  let g := clearCenter g
  let room := roomAt s id
  let g := if room.neighbors.n then carveDoor g Js.Dir.N else g
  let g := if room.neighbors.s then carveDoor g Js.Dir.S else g
  let g := if room.neighbors.w then carveDoor g Js.Dir.W else g
  let g := if room.neighbors.e then carveDoor g Js.Dir.E else g
  ({ s with rooms := Js.amap s.rooms id (fun rm => { rm with g := g }) }, r)

/-- The `link` closure of `buildNeighborsAround` (n.mjs 317–324):
no node beyond `MAX_DEPTH = 40` is ever created. -/
def link (s : St) (id nid : ℤ × ℤ) (dirA dirB : Js.Dir) : St :=
  if 40 < nid.1.natAbs + nid.2.natAbs then s
  else
    let roomsA := Js.amap s.rooms id
      (fun rm => { rm with neighbors := rm.neighbors.setD dirA true })
    let s := { s with rooms := roomsA }
    let s := ensureNode s nid
    let s := ensureRoom s nid
    let roomsB := Js.amap s.rooms nid
      (fun rm => { rm with neighbors := rm.neighbors.setD dirB true })
    { s with rooms := roomsB }

/-- `buildNeighborsAround(id)` (n.mjs 311–333). -/
def buildNeighborsAround (s : St) (id : ℤ × ℤ) (r : List ℚ) : St × List ℚ :=
  let s := ensureNode s id
  let s := ensureRoom s id
  let x := (nodeAt s id).x
  let y := (nodeAt s id).y
  let s := link s id (x, y - 1) Js.Dir.N Js.Dir.S
  let s := link s id (x, y + 1) Js.Dir.S Js.Dir.N
  let s := link s id (x - 1, y) Js.Dir.W Js.Dir.E
  let s := link s id (x + 1, y) Js.Dir.E Js.Dir.W
  let map2 := Js.amap s.map id (fun n => { n with kind := assignRoomKind n })
  let s := { s with map := map2 }
  genRoomTiles s id r

/-- `lockDoors(room, locked)` (n.mjs 335–340): sets all four `doorsOpen`
flags to `!locked`, with no look at `neighbors`. -/
def lockDoors (rm : Room) (locked : Bool) : Room :=
  { rm with doorsOpen := ⟨!locked, !locked, !locked, !locked⟩ }

/-- `spawnEnemy(type, x, y, depth)` (n.mjs 343–355). -/
def spawnEnemy (s : St) (etype : String) (x y : ℚ) (depth : ℕ) : St :=
  let hpBase : ℚ := if etype = "shooter" then 10 else 9
  { s with enemies := s.enemies ++
      [{ etype := etype, x := x, y := y,
         r := if etype = "shooter" then 18 else 19,
         hp := hpBase + ((depth / 3 : ℕ) : ℚ),
         vx := 0, vy := 0, t := 0, fireCD := 0,
         phase := 0, patternId := 0, patternName := "", spinA := 0 }] }

def bossPatternName (i : ℕ) : String :=
  if i = 0 then "Boss Shotcone"
  else if i = 1 then "Boss Burst"
  else if i = 2 then "Boss Spiral"
  else "Boss LaserSweep"

/-- `shake(amount, time)` (n.mjs 391–394). -/
def shake (s : St) (amount time : ℚ) : St :=
  { s with
    cam := { s.cam with
      shake := max s.cam.shake amount, shakeT := max s.cam.shakeT time } }

/-- `spawnBoss(x, y, depth)` (n.mjs 357–377). -/
def spawnBoss (M : Js.JsMath) (s : St) (x y : ℚ) (depth : ℕ) (r : List ℚ) :
    St × List ℚ :=
  let (pidx, r) := Js.randi 4 r
  let (sa, r) := Js.randf r
  let boss : Enemy :=
    { etype := "boss", x := x, y := y, r := 30,
      hp := 140 + (depth : ℚ) * 6, vx := 0, vy := 0, t := 0, fireCD := 0,
      phase := 0, patternId := pidx, patternName := bossPatternName pidx,
      spinA := sa * M.tau }
  let s := { s with enemies := s.enemies ++ [boss] }
  let s := { s with msg := "BOSS: " ++ bossPatternName pidx, msgT := 12/10 }
  (shake s 10 (22/100), r)

/-- The enemy-spawning loop of `spawnRoomContents` (n.mjs 481–486), recursing
on the remaining iteration count (the first iteration consumes the first
draws, as the `for` loop does). -/
def spawnLoop (s : St) (depth : ℕ) : ℕ → List ℚ → St × List ℚ
| 0, r => (s, r)
| n + 1, r =>
    let (v1, r) := Js.randf r
    let (v2, r) := Js.randf r
    let (c, r) := Js.chance (30/100) r
    spawnLoop (spawnEnemy s (if c then "shooter" else "chaser")
      (80 + v1 * (ROOM_W - 160)) (80 + v2 * (ROOM_H - 160)) depth) depth n r

/-- `spawnRoomContents(roomId)` (n.mjs 458–492). -/
def spawnRoomContents (M : Js.JsMath) (s : St) (id : ℤ × ℤ) (r : List ℚ) :
    St × List ℚ :=
  let s := ensureNode s id
  let s := ensureRoom s id
  let mapK := Js.amap s.map id (fun n => { n with kind := assignRoomKind n })
  let s := { s with map := mapK }
  let node := nodeAt s id
  let s := { s with enemies := [], bullets := [], pickups := [], fx := [] }
  if node.kind = "start" ∨ node.kind = "shop" then
    let s := { s with map := Js.amap s.map id (fun n => { n with cleared := true }) }
    let s := { s with rooms := Js.amap s.rooms id (fun rm => lockDoors rm false) }
    if node.kind = "start" then
      ({ s with pickups := s.pickups ++
          [{ x := ROOM_W/2 + 60, y := ROOM_H/2, t := "coin", v := 6, r := 10 }] }, r)
    else (s, r)
  else if node.cleared = false then
    let sr :=
      if shouldSpawnBoss node then
        spawnBoss M s (ROOM_W * (5/10)) (ROOM_H * (5/10)) node.depth r
      else
        spawnLoop s node.depth (4 + (Js.randi 4 r).1 + node.depth / 4)
          (Js.randi 4 r).2
    ({ sr.1 with rooms := Js.amap sr.1.rooms id (fun rm => lockDoors rm true) },
      sr.2)
  else
    ({ s with rooms := Js.amap s.rooms id (fun rm => lockDoors rm false) }, r)

/-- `snapCameraToPlayer()` (n.mjs 833–842). -/
def snapCameraToPlayer (s : St) : St :=
  let maxX := max 0 (ROOM_W - 960)
  let maxY := max 0 (ROOM_H - 540)
  let s := { s with cam := { s.cam with
      x := Js.clamp (s.player.x - 960/2) 0 maxX,
      y := Js.clamp (s.player.y - 540/2) 0 maxY } }
  { s with viewOX := if ROOM_W < 960 then (960 - ROOM_W) * (5/10) else 0,
           viewOY := if ROOM_H < 540 then (540 - ROOM_H) * (5/10) else 0 }

/-- `loadRoom(roomId)` (n.mjs 494–507). -/
def loadRoom (M : Js.JsMath) (s : St) (id : ℤ × ℤ) (r : List ℚ) : St × List ℚ :=
  let s := ensureNode s id
  let mapK := Js.amap s.map id (fun n => { n with kind := assignRoomKind n })
  let s := { s with map := mapK }
  let (s, r) := buildNeighborsAround s id r
  let (s, r) := genRoomTiles s id r
  let (s, r) := spawnRoomContents M s id r
  let s := ensureNode s id
  let s := { s with map := Js.amap s.map id (fun n => { n with seen := true }) }
  let s := { s with shopOpen := false }
  (snapCameraToPlayer s, r)

/-- `inDoorBand(dir, x, y)` (n.mjs 412–420): the door trigger band,
`DOOR_SPAN = 44` half-width around the door center line, `DOOR_THICK = 26`
from the boundary. -/
def inDoorBand (dir : Js.Dir) (x y : ℚ) : Bool :=
  let cx := ROOM_W * (5/10)
  let cy := ROOM_H * (5/10)
  match dir with
  | Js.Dir.N => decide (|x - cx| ≤ 44 ∧ y ≤ 26)
  | Js.Dir.S => decide (|x - cx| ≤ 44 ∧ y ≥ ROOM_H - 26)
  | Js.Dir.W => decide (|y - cy| ≤ 44 ∧ x ≤ 26)
  | Js.Dir.E => decide (|y - cy| ≤ 44 ∧ x ≥ ROOM_W - 26)

/-- The body of `tryDoorTransitionByIntent` after its two `ensure` calls
(n.mjs 426–454). -/
def tryDoorGo (M : Js.JsMath) (dir : Js.Dir) (s : St) (r : List ℚ) :
    Bool × St × List ℚ :=
  if (roomAt s s.roomId).neighbors.get dir = false then (false, s, r)
  else if (roomAt s s.roomId).doorsOpen.get dir = false then
    if inDoorBand dir s.player.x s.player.y then
      (false, { s with msg := "DOOR LOCKED", msgT := 7/10 }, r)
    else (false, s, r)
  else
    let node := nodeAt s s.roomId
    let d : ℤ × ℤ := match dir with
      | Js.Dir.N => (0, -1)
      | Js.Dir.S => (0, 1)
      | Js.Dir.W => (-1, 0)
      | Js.Dir.E => (1, 0)
    let nid := (node.x + d.1, node.y + d.2)
    let s := ensureNode s nid
    let s := ensureRoom s nid
    let s := { s with roomId := nid }
    let (s, r) := loadRoom M s s.roomId r
    let p := s.player
    let p := match dir with
      | Js.Dir.N => { p with y := ROOM_H - 24, x := Js.clamp p.x 24 (ROOM_W - 24) }
      | Js.Dir.S => { p with y := 24, x := Js.clamp p.x 24 (ROOM_W - 24) }
      | Js.Dir.W => { p with x := ROOM_W - 24, y := Js.clamp p.y 24 (ROOM_H - 24) }
      | Js.Dir.E => { p with x := 24, y := Js.clamp p.y 24 (ROOM_H - 24) }
    let s := { s with player := p }
    (true, snapCameraToPlayer s, r)

/-- `tryDoorTransitionByIntent(dir)` (n.mjs 422–455). -/
def tryDoorTransitionByIntent (M : Js.JsMath) (dir : Js.Dir) (s : St)
    (r : List ℚ) : Bool × St × List ℚ :=
  tryDoorGo M dir (ensureRoom (ensureNode s s.roomId) s.roomId) r

/-- The per-direction guard of the door-intent check in `update`
(n.mjs 776–779): outward velocity, inside the trigger band, and the
projected next position past the boundary. -/
def doorCheckDir (d : Js.Dir) (dt : ℚ) (s : St) : Bool :=
  match d with
  | Js.Dir.N => decide (s.player.vy < 0)
      && inDoorBand Js.Dir.N s.player.x s.player.y
      && decide (s.player.y + s.player.vy * dt ≤ 2)
  | Js.Dir.S => decide (s.player.vy > 0)
      && inDoorBand Js.Dir.S s.player.x s.player.y
      && decide (s.player.y + s.player.vy * dt ≥ ROOM_H - 2)
  | Js.Dir.W => decide (s.player.vx < 0)
      && inDoorBand Js.Dir.W s.player.x s.player.y
      && decide (s.player.x + s.player.vx * dt ≤ 2)
  | Js.Dir.E => decide (s.player.vx > 0)
      && inDoorBand Js.Dir.E s.player.x s.player.y
      && decide (s.player.x + s.player.vx * dt ≥ ROOM_W - 2)

/-- The door-intent phase of `update` (n.mjs 776–779), checking N, S, W, E in
the source's order; a successful transition exits `update` at once, a failed
attempt falls through to the next direction.  (The source computes the
projected position once before the four checks; a failed attempt leaves the
player untouched, so the live re-projection used here is the same value.) -/
def doorPhaseGo (M : Js.JsMath) (dt : ℚ) :
    List Js.Dir → St → List ℚ → St × Option Js.Dir × List ℚ
| [], s, r => (s, none, r)
| d :: ds, s, r =>
    if doorCheckDir d dt s then
      match tryDoorTransitionByIntent M d s r with
      | (true, s2, r2) => (s2, some d, r2)
      | (false, s2, r2) => doorPhaseGo M dt ds s2 r2
    else doorPhaseGo M dt ds s r

def doorPhase (M : Js.JsMath) (dt : ℚ) (s : St) (r : List ℚ) :
    St × Option Js.Dir × List ℚ :=
  doorPhaseGo M dt [Js.Dir.N, Js.Dir.S, Js.Dir.W, Js.Dir.E] s r

/-- The room-clear check closing each `update` (n.mjs 793–803). -/
def clearCheck (s : St) : St :=
  if (nodeAt s s.roomId).cleared = false ∧ (nodeAt s s.roomId).kind = "combat" then
    if s.enemies.length = 0 then
      let mapC := Js.amap s.map s.roomId (fun n => { n with cleared := true })
      let s := { s with map := mapC }
      let roomsO := Js.amap s.rooms s.roomId (fun rm => lockDoors rm false)
      let s := { s with rooms := roomsO }
      let s := { s with msg := "CLEARED", msgT := 9/10 }
      { s with pickups := s.pickups ++
          [{ x := ROOM_W/2, y := ROOM_H/2, t := "coin", v := 6, r := 10 }] }
    else s
  else s

/-- `isSolidAtPoint(wx, wy, room)` (n.mjs 278–295): out-of-bounds is solid,
walls/pits are solid, pillars are solid inside a disc of radius `TILE·0.3`. -/
def isSolidAtPoint (wx wy : ℚ) (room : Room) : Bool :=
  let tx := Js.jsTrunc (wx / 40)
  let ty := Js.jsTrunc (wy / 40)
  if tx < 0 ∨ ty < 0 ∨ 21 ≤ tx ∨ 13 ≤ ty then true
  else
    let t := room.g.getD (tileIndex tx.toNat ty.toNat) 0
    if t = 0 ∨ t = 2 then true
    else if t = 4 then
      let cx := (tx : ℚ) * 40 + 40 * (5/10)
      let cy := (ty : ℚ) * 40 + 40 * (5/10)
      decide ((wx - cx) * (wx - cx) + (wy - cy) * (wy - cy) ≤
        (40 * (30/100)) * (40 * (30/100)))
    else false

/-- `collideCircle(x, y, r, room)` (n.mjs 297–306): 14 boundary samples. -/
def collideCircle (M : Js.JsMath) (x y rad : ℚ) (room : Room) : Bool :=
  (List.range 14).any (fun i =>
    let a := ((i : ℚ) / 14) * M.tau
    isSolidAtPoint (x + M.cos a * rad) (y + M.sin a * rad) room)

/-- `hurtPlayer(dmg)` (n.mjs 610–621): a no-op while the invulnerability
timer is positive. -/
def hurtPlayer (s : St) (dmg : ℚ) : St :=
  if s.player.invT > 0 then s
  else
    let s := { s with player := { s.player with hp := s.player.hp - dmg, invT := 7/10 } }
    let s := shake s 9 (18/100)
    if s.player.hp ≤ 0 then
      { s with player := { s.player with hp := 0 },
               msg := "YOU DIED — PRESS R", msgT := 999, paused := true }
    else s

/-- `spawnBullet(x, y, vx, vy, dmg, from, kind, life)` (n.mjs 379–389). -/
def spawnBullet (s : St) (x y vx vy dmg : ℚ) (src kind : String)
    (life : Option ℚ) : St :=
  { s with bullets := s.bullets ++
      [{ x := x, y := y, vx := vx, vy := vy,
         r := if src = "player" then 4 else 5,
         t := match life with
              | some l => l
              | none => if src = "player" then 12/10 else 18/10,
         dmg := dmg, src := src, kind := kind }] }

/-- `dropCoins(x, y, amount)` (n.mjs 397–409). -/
def dropCoins (M : Js.JsMath) (s : St) (x y : ℚ) (amount : ℕ) (r : List ℚ) :
    St × List ℚ :=
  (List.range amount).foldl (fun sr _ =>
    let (v1, r) := Js.randf sr.2
    let (v2, r) := Js.randf r
    let a := v1 * M.tau
    let rad := 18 + v2 * 22
    ({ sr.1 with pickups := sr.1.pickups ++
        [{ x := x + M.cos a * rad, y := y + M.sin a * rad,
           t := "coin", v := 1, r := 9 }] }, r)) (s, r)

def defaultWeapon : Weapon := ⟨0, "", false, 0, 0, 0, 0, 0, 0⟩

def defaultShopItem : ShopItem := ⟨0, "", 0, "", 0, 0, ""⟩

/-- `unlockRandomWeapon()` (n.mjs 922–930). -/
def unlockRandomWeapon (s : St) (r : List ℚ) : St × List ℚ :=
  let locked := s.weapons.filter (fun w => !w.unlocked)
  if locked.length = 0 then (s, r)
  else
    let (i, r) := Js.randi locked.length r
    let w := locked.getD i defaultWeapon
    ({ s with
        weapons := s.weapons.map (fun w2 =>
          if w2.id = w.id then { w2 with unlocked := true } else w2),
        msg := "FOUND: " ++ w.name, msgT := 11/10 }, r)

/-- The initial `WEAPONS` table (n.mjs 109–117). -/
def WEAPONS0 : List Weapon :=
  [⟨0, "Pistol", true, 3, 18/100, 520, 0, 1, 0⟩,
   ⟨1, "Shotgun", false, 2, 55/100, 460, 40/100, 6, 0⟩,
   ⟨2, "Rifle", false, 4, 12/100, 620, 2/100, 1, 0⟩,
   ⟨3, "SMG", false, 2, 7/100, 560, 8/100, 1, 0⟩,
   ⟨4, "Sniper", false, 10, 65/100, 860, 0, 1, 0⟩,
   ⟨5, "Burst", false, 3, 22/100, 640, 3/100, 3, 3/100⟩,
   ⟨6, "Laser", false, 5, 30/100, 900, 0, 1, 0⟩]

/-- The `SHOP_ITEMS` table (n.mjs 120–128). -/
def SHOP_ITEMS : List ShopItem :=
  [⟨1, "Unlock Shotgun", 10, "unlock", 1, 0, "Cone crowd control"⟩,
   ⟨2, "Unlock Rifle", 16, "unlock", 2, 0, "Fast & accurate"⟩,
   ⟨3, "Unlock SMG", 18, "unlock", 3, 0, "Spray & pray"⟩,
   ⟨4, "Unlock Sniper", 22, "unlock", 4, 0, "Huge damage"⟩,
   ⟨5, "Unlock Burst", 20, "unlock", 5, 0, "3-round burst"⟩,
   ⟨6, "Unlock Laser", 26, "unlock", 6, 0, "Hyper-fast bolt"⟩,
   ⟨7, "Heal +3", 6, "heal", 0, 3, "Patch up"⟩]

/-- `shoot()` (n.mjs 553–589). -/
def shoot (M : Js.JsMath) (inp : Input) (s : St) (r : List ℚ) : St × List ℚ :=
  if s.player.fireCD > 0 then (s, r)
  else
    let w := s.weapons.getD s.player.weapon defaultWeapon
    if w.unlocked = false then (s, r)
    else
      let wx := s.cam.x + (inp.mouseX - s.viewOX)
      let wy := s.cam.y + (inp.mouseY - s.viewOY)
      let n := Js.norm M (wx - s.player.x) (wy - s.player.y)
      let baseA := M.atan2 n.y n.x
      if w.id = 5 then
        ({ s with player := { s.player with
            burstQ := (w.pellets : ℚ), burstCD := 0, fireCD := w.fire } }, r)
      else if w.id = 6 then
        let s := spawnBullet s s.player.x s.player.y
          (M.cos baseA * w.speed) (M.sin baseA * w.speed) w.dmg "player" "pl"
          (some (9/10))
        let s := { s with player := { s.player with fireCD := w.fire } }
        (shake s 3 (7/100), r)
      else
        let (s, r) := (List.range w.pellets).foldl (fun sr _ =>
          let (v1, r) := Js.randf sr.2
          let (v2, r) := Js.randf r
          let a := baseA + w.spread * (v1 - 5/10)
          let sp := w.speed * (92/100 + v2 * (16/100))
          (spawnBullet sr.1 sr.1.player.x sr.1.player.y
            (M.cos a * sp) (M.sin a * sp) w.dmg "player" "p" (some (11/10)), r))
          (s, r)
        let s := { s with player := { s.player with fireCD := w.fire } }
        (shake s (2 + (if 1 < w.pellets then 2 else 0)) (8/100), r)

/-- `updateBurst(dt)` (n.mjs 591–608). -/
def updateBurst (M : Js.JsMath) (dt : ℚ) (inp : Input) (s : St) (r : List ℚ) :
    St × List ℚ :=
  if s.player.burstQ ≤ 0 then (s, r)
  else
    let s := { s with player := { s.player with burstCD := s.player.burstCD - dt } }
    if s.player.burstCD > 0 then (s, r)
    else
      let w := s.weapons.getD 5 defaultWeapon
      let wx := s.cam.x + (inp.mouseX - s.viewOX)
      let wy := s.cam.y + (inp.mouseY - s.viewOY)
      let n := Js.norm M (wx - s.player.x) (wy - s.player.y)
      let baseA := M.atan2 n.y n.x
      let (v1, r) := Js.randf r
      let a := baseA + w.spread * (v1 - 5/10)
      let s := spawnBullet s s.player.x s.player.y
        (M.cos a * w.speed) (M.sin a * w.speed) w.dmg "player" "pb" (some 1)
      let s := { s with player := { s.player with
          burstQ := s.player.burstQ - 1, burstCD := w.burstStep } }
      (shake s (15/10) (4/100), r)

/-- `bossAttack(boss, dt)` (n.mjs 624–669). -/
def bossAttack (M : Js.JsMath) (dt : ℚ) (s : St) (boss : Enemy) (r : List ℚ) :
    Enemy × St × List ℚ :=
  let boss := { boss with fireCD := boss.fireCD - dt }
  if boss.fireCD > 0 then (boss, s, r)
  else
    let dx := s.player.x - boss.x
    let dy := s.player.y - boss.y
    let aToP := M.atan2 dy dx
    let depth := (nodeAt s s.roomId).depth
    let spBase := 260 + (depth : ℚ) * 3
    let (boss, s, r) :=
      if boss.patternId = 0 then
        let s := (List.range 9).foldl (fun s i =>
          let a := aToP + (75/100) * ((i : ℚ) / 8 - 5/10)
          spawnBullet s boss.x boss.y (M.cos a * spBase) (M.sin a * spBase)
            1 "enemy" "be" (some (22/10))) s
        ({ boss with fireCD := 95/100 }, s, r)
      else if boss.patternId = 1 then
        let (s, r) := (List.range 3).foldl (fun sr _ =>
          let (v, r) := Js.randf sr.2
          let aj := aToP + (10/100) * (v - 5/10)
          (spawnBullet sr.1 boss.x boss.y (M.cos aj * (spBase + 120))
            (M.sin aj * (spBase + 120)) 1 "enemy" "be" (some 2), r)) (s, r)
        ({ boss with fireCD := 45/100 }, s, r)
      else if boss.patternId = 2 then
        let boss := { boss with spinA := boss.spinA + 55/100 }
        let s := (List.range 6).foldl (fun s k =>
          let ak := boss.spinA + (k : ℚ) * (M.tau / 6)
          spawnBullet s boss.x boss.y (M.cos ak * (spBase + 60))
            (M.sin ak * (spBase + 60)) 1 "enemy" "be" (some (24/10))) s
        ({ boss with fireCD := 70/100 }, s, r)
      else
        let sweep : ℚ := ((boss.phase % 7 : ℕ) : ℚ) - 3
        let al := aToP + sweep * (8/100)
        let s := spawnBullet s boss.x boss.y (M.cos al * (spBase + 300))
          (M.sin al * (spBase + 300)) 2 "enemy" "beL" (some (12/10))
        ({ boss with phase := boss.phase + 1, fireCD := 18/100 }, s, r)
    (boss, shake s 6 (10/100), r)

/-- One iteration of the `updateEnemies` loop (n.mjs 849–919), for the enemy
at the current index: `none` means the enemy was spliced out. -/
def stepOneEnemy (M : Js.JsMath) (dt : ℚ) (room : Room) (depth : ℕ)
    (s : St) (e : Enemy) (r : List ℚ) : Option Enemy × St × List ℚ :=
  let e := { e with t := e.t + dt }
  if e.etype = "boss" then
    let dxB := ROOM_W * (5/10) - e.x
    let dyB := ROOM_H * (5/10) - e.y
    let e := { e with vx := Js.lerp e.vx (dxB * (25/100)) (18/10 * dt),
                      vy := Js.lerp e.vy (dyB * (25/100)) (18/10 * dt) }
    let nx := e.x + e.vx * dt
    let ny := e.y + e.vy * dt
    let e := if collideCircle M nx e.y e.r room then e else { e with x := nx }
    let e := if collideCircle M e.x ny e.r room then e else { e with y := ny }
    let (e, s, r) := bossAttack M dt s e r
    let s := if Js.dist2 e.x e.y s.player.x s.player.y <
        (e.r + s.player.r) * (e.r + s.player.r) then hurtPlayer s 2 else s
    if e.hp ≤ 0 then
      let (s, r) := dropCoins M s e.x e.y 30 r
      let (c, r) := Js.chance (80/100) r
      let (s, r) := if c then unlockRandomWeapon s r else (s, r)
      let s := shake s 14 (25/100)
      (none, { s with msg := "BOSS DOWN!", msgT := 12/10 }, r)
    else (some e, s, r)
  else
    let dx := s.player.x - e.x
    let dy := s.player.y - e.y
    let d0 := M.sqrt (dx * dx + dy * dy)
    let d := if d0 = 0 then 1 else d0
    let (e, s, r) :=
      if e.etype = "chaser" then
        ({ e with vx := dx / d * (105 + (depth : ℚ) * 2),
                  vy := dy / d * (105 + (depth : ℚ) * 2) }, s, r)
      else
        let sp2 := 95 + (depth : ℚ) * (15/10)
        let (e, r) : Enemy × List ℚ :=
          if d < 210 then
            ({ e with vx := -(dx / d) * sp2, vy := -(dy / d) * sp2 }, r)
          else
            let (v1, r) := Js.randf r
            let (v2, r) := Js.randf r
            ({ e with vx := (v1 - 5/10) * 40, vy := (v2 - 5/10) * 40 }, r)
        let e := if e.fireCD > 0 then { e with fireCD := e.fireCD - dt } else e
        if e.fireCD ≤ 0 ∧ d < 480 then
          let n := Js.norm M dx dy
          let s := spawnBullet s e.x e.y (n.x * (320 + (depth : ℚ) * 4))
            (n.y * (320 + (depth : ℚ) * 4)) 1 "enemy" "e" (some 2)
          let (v3, r) := Js.randf r
          ({ e with fireCD := 9/10 + v3 * (6/10) }, s, r)
        else (e, s, r)
    let nx2 := e.x + e.vx * dt
    let ny2 := e.y + e.vy * dt
    let e := if collideCircle M nx2 e.y e.r room then e else { e with x := nx2 }
    let e := if collideCircle M e.x ny2 e.r room then e else { e with y := ny2 }
    let s := if Js.dist2 e.x e.y s.player.x s.player.y <
        (e.r + s.player.r) * (e.r + s.player.r) then hurtPlayer s 1 else s
    if e.hp ≤ 0 then
      let (cv, r) := Js.randi 3 r
      let (s, r) := dropCoins M s e.x e.y (2 + cv + depth / 4) r
      let (c, r) := Js.chance (10/100) r
      let s := if c then { s with pickups := s.pickups ++
          [{ x := e.x, y := e.y, t := "heart", v := 2, r := 10 }] } else s
      (none, s, r)
    else (some e, s, r)

/-- The `updateEnemies` loop walks the array from the last index down; the
recursion processes the tail (higher indices) first, matching that order and
`splice` semantics. -/
def updateEnemiesGo (M : Js.JsMath) (dt : ℚ) (room : Room) (depth : ℕ) :
    List Enemy → St → List ℚ → List Enemy × St × List ℚ
| [], s, r => ([], s, r)
| e :: rest, s, r =>
    let (rest2, s, r) := updateEnemiesGo M dt room depth rest s r
    let (e2, s, r) := stepOneEnemy M dt room depth s e r
    (match e2 with
     | none => rest2
     | some e2 => e2 :: rest2, s, r)

/-- `updateEnemies(dt)` (n.mjs 844–920). -/
def updateEnemies (M : Js.JsMath) (dt : ℚ) (s : St) (r : List ℚ) :
    St × List ℚ :=
  let s := ensureRoom s s.roomId
  let s := ensureNode s s.roomId
  let room := roomAt s s.roomId
  let depth := (nodeAt s s.roomId).depth
  let (es, s, r) := updateEnemiesGo M dt room depth s.enemies s r
  ({ s with enemies := es }, r)

/-- The enemy scan of a player bullet (n.mjs 947–955): from the last index
down, damage the first enemy hit. -/
def bulletHitScan (b : Bullet) : List Enemy → List Enemy × Bool
| [] => ([], false)
| e :: rest =>
    let (rest2, hit) := bulletHitScan b rest
    if hit then (e :: rest2, true)
    else if Js.dist2 b.x b.y e.x e.y < (b.r + e.r) * (b.r + e.r) then
      ({ e with hp := e.hp - b.dmg } :: rest2, true)
    else (e :: rest2, false)

/-- The `updateBullets` loop (n.mjs 935–965), last index first.  After a
consumed enemy hit the source falls through to the `b.t <= 0` check and, when
it fires, splices the array slot again — removing the bullet that slid into
the hole; `rest2.tail` reproduces that. -/
def updateBulletsGo (M : Js.JsMath) (dt : ℚ) (room : Room) :
    List Bullet → St → List Bullet × St
| [], s => ([], s)
| b :: rest, s =>
    let (rest2, s) := updateBulletsGo M dt room rest s
    let b := { b with t := b.t - dt }
    let nx := b.x + b.vx * dt
    let ny := b.y + b.vy * dt
    if isSolidAtPoint nx ny room then (rest2, s)
    else
      let b := { b with x := nx, y := ny }
      if b.src = "player" then
        let (es, hit) := bulletHitScan b s.enemies
        if hit then
          let s := shake { s with enemies := es } 2 (5/100)
          if b.t ≤ 0 then (rest2.tail, s) else (rest2, s)
        else if b.t ≤ 0 then (rest2, s) else (b :: rest2, s)
      else
        if Js.dist2 b.x b.y s.player.x s.player.y <
            (b.r + s.player.r) * (b.r + s.player.r) then
          (rest2, hurtPlayer s b.dmg)
        else if b.t ≤ 0 then (rest2, s) else (b :: rest2, s)

/-- `updateBullets(dt)` (n.mjs 932–966). -/
def updateBullets (M : Js.JsMath) (dt : ℚ) (s : St) : St :=
  let s := ensureRoom s s.roomId
  let room := roomAt s s.roomId
  let (bs, s) := updateBulletsGo M dt room s.bullets s
  { s with bullets := bs }

/-- The `updatePickups` loop (n.mjs 968–977), last index first. -/
def updatePickupsGo : List Pickup → St → List Pickup × St
| [], s => ([], s)
| p :: rest, s =>
    let (rest2, s) := updatePickupsGo rest s
    if Js.dist2 p.x p.y s.player.x s.player.y <
        (p.r + s.player.r + 10) * (p.r + s.player.r + 10) then
      if p.t = "coin" then
        (rest2, { s with coins := s.coins + p.v, msg := "+COIN", msgT := 30/100 })
      else if p.t = "heart" then
        let p2 := { s.player with hp := Js.clamp (s.player.hp + p.v) 0 s.player.hpMax }
        (rest2, { s with player := p2, msg := "+HP", msgT := 45/100 })
      else (rest2, s)
    else (p :: rest2, s)

def updatePickups (s : St) : St :=
  let (ps, s) := updatePickupsGo s.pickups s
  { s with pickups := ps }

/-- The `updateParticles` loop (n.mjs 979–989). -/
def updateParticlesGo (M : Js.JsMath) (dt : ℚ) : List Fx → List Fx
| [] => []
| p :: rest =>
    let rest2 := updateParticlesGo M dt rest
    let p := { p with t := p.t - dt, x := p.x + p.vx * dt, y := p.y + p.vy * dt }
    let p := { p with vx := p.vx * M.powq (2/1000) dt, vy := p.vy * M.powq (2/1000) dt }
    if p.t ≤ 0 then rest2 else p :: rest2

def updateParticles (M : Js.JsMath) (dt : ℚ) (s : St) : St :=
  { s with fx := updateParticlesGo M dt s.fx }

/-- `updateCamera(dt)` (n.mjs 817–831). -/
def updateCamera (dt : ℚ) (s : St) : St :=
  let maxX := max 0 (ROOM_W - 960)
  let maxY := max 0 (ROOM_H - 540)
  let tx := Js.clamp (s.player.x - 960/2) 0 maxX
  let ty := Js.clamp (s.player.y - 540/2) 0 maxY
  let s := { s with cam := { s.cam with x := Js.lerp s.cam.x tx (10 * dt),
                                        y := Js.lerp s.cam.y ty (10 * dt) } }
  { s with viewOX := if ROOM_W < 960 then (960 - ROOM_W) * (5/10) else 0,
           viewOY := if ROOM_H < 540 then (540 - ROOM_H) * (5/10) else 0 }

/-- `cycleWeapon(dir)` (n.mjs 806–815): advance through the table until an
unlocked weapon is found, at most `WEAPONS.length` probes. -/
def cycleWeapon (s : St) (dir : ℤ) : St :=
  let res := (List.range 7).foldl (fun acc _ =>
    match acc with
    | (i, some j) => (i, some j)
    | (i, none) =>
        let i2 := (((i : ℤ) + dir + 7) % 7).toNat
        if (s.weapons.getD i2 defaultWeapon).unlocked then (i2, some i2)
        else (i2, none)) (s.player.weapon, (none : Option ℕ))
  match res.2 with
  | some i => { s with player := { s.player with weapon := i } }
  | none => s

/-- `nearShopCounter()` (n.mjs 510–514). -/
def nearShopCounter (s : St) : Bool :=
  decide (Js.dist2 s.player.x s.player.y (ROOM_W * (5/10)) (40 * (27/10)) < 60 * 60)

/-- `tryOpenShop()` (n.mjs 516–525). -/
def tryOpenShop (s : St) : St :=
  let s := ensureNode s s.roomId
  if (nodeAt s s.roomId).kind ≠ "shop" then s
  else if nearShopCounter s = false then
    { s with msg := "STEP TO COUNTER", msgT := 8/10 }
  else { s with shopOpen := !s.shopOpen }

/-- `buyShopItem(item)` (n.mjs 527–550). -/
def buyShopItem (s : St) (item : ShopItem) : St :=
  if s.coins < item.cost then
    shake { s with msg := "NOT ENOUGH COINS", msgT := 8/10 } 2 (8/100)
  else if item.itype = "unlock" then
    let w := s.weapons.getD item.weaponId defaultWeapon
    if w.unlocked then { s with msg := "ALREADY OWNED", msgT := 7/10 }
    else
      let upd := fun (w2 : Weapon) =>
        if w2.id = item.weaponId then { w2 with unlocked := true } else w2
      let s := { s with weapons := s.weapons.map upd }
      { s with coins := s.coins - item.cost, msg := "UNLOCKED: " ++ w.name, msgT := 1 }
  else if item.itype = "heal" then
    if s.player.hp ≥ s.player.hpMax then { s with msg := "HP FULL", msgT := 7/10 }
    else
      let s := { s with coins := s.coins - item.cost }
      let p2 := { s.player with hp := Js.clamp (s.player.hp + item.amount) 0 s.player.hpMax }
      { s with player := p2, msg := "HEALED", msgT := 9/10 }
  else s

/-- `resetGame()` (n.mjs 1364–1398). -/
def resetGame (M : Js.JsMath) (s : St) (r : List ℚ) : St × List ℚ :=
  let s := { s with
    msg := "", msgT := 0, coins := 0, roomId := (0, 0),
    map := [], rooms := [], enemies := [], bullets := [],
    pickups := [], fx := [], paused := false, shopOpen := false }
  let s := { s with weapons := s.weapons.map (fun (w : Weapon) => { w with unlocked := w.id = 0 }) }
  let p2 : Player := { s.player with
    x := ROOM_W/2, y := ROOM_H/2, hpMax := 8, hp := 8, invT := 0, dashT := 0,
    dashCD := 0, vx := 0, vy := 0, weapon := 0, fireCD := 0,
    burstQ := 0, burstCD := 0 }
  let s := { s with player := p2 }
  let s := ensureNode s (0, 0)
  let s := ensureRoom s (0, 0)
  let (s, r) := loadRoom M s (0, 0) r
  (snapCameraToPlayer s, r)

/-- `update(dt)` (n.mjs 672–804), the per-tick advance step. -/
def update (M : Js.JsMath) (dt : ℚ) (inp : Input) (s : St) (r : List ℚ) :
    St × List ℚ :=
  if s.paused then
    let s := if inp.escP then { s with paused := false } else s
    if inp.rP then resetGame M s r else (s, r)
  else
    let s := if inp.escP then
        (if s.shopOpen then { s with shopOpen := false }
         else { s with paused := true })
      else s
    let (s, r) := if inp.rP then resetGame M s r else (s, r)
    let s := if s.msgT > 0 then { s with msgT := s.msgT - dt } else s
    let s := if s.player.invT > 0 then
        { s with player := { s.player with invT := s.player.invT - dt } } else s
    let s := if s.player.fireCD > 0 then
        { s with player := { s.player with fireCD := s.player.fireCD - dt } } else s
    let s := if s.player.dashT > 0 then
        { s with player := { s.player with dashT := s.player.dashT - dt } } else s
    let s := if s.player.dashCD > 0 then
        { s with player := { s.player with dashCD := s.player.dashCD - dt } } else s
    let s := if s.player.burstCD > 0 then
        { s with player := { s.player with burstCD := s.player.burstCD - dt } } else s
    let s := if s.cam.shakeT > 0 then
        { s with
          cam := { s.cam with
            shakeT := s.cam.shakeT - dt, shake := Js.lerp s.cam.shake 0 (10 * dt) } }
      else { s with cam := { s.cam with shake := 0 } }
    let s := ensureNode s s.roomId
    let s := if inp.fP ∧ (nodeAt s s.roomId).kind = "shop" then tryOpenShop s else s
    if (nodeAt s s.roomId).kind = "shop" ∧ s.shopOpen then
      let s := if inp.oneP then buyShopItem s (SHOP_ITEMS.getD 0 defaultShopItem) else s
      let s := if inp.twoP then buyShopItem s (SHOP_ITEMS.getD 1 defaultShopItem) else s
      let s := if inp.threeP then buyShopItem s (SHOP_ITEMS.getD 2 defaultShopItem) else s
      let s := if inp.fourP then buyShopItem s (SHOP_ITEMS.getD 3 defaultShopItem) else s
      let s := if inp.fiveP then buyShopItem s (SHOP_ITEMS.getD 4 defaultShopItem) else s
      let s := if inp.sixP then buyShopItem s (SHOP_ITEMS.getD 5 defaultShopItem) else s
      let s := if inp.sevenP then buyShopItem s (SHOP_ITEMS.getD 6 defaultShopItem) else s
      (updateParticles M dt s, r)
    else
      let s := if inp.qP then cycleWeapon s (-1) else s
      let s := if inp.eP then cycleWeapon s 1 else s
      let s :=
        if (inp.spaceP ∨ inp.shiftP) ∧ s.player.dashCD ≤ 0 then
          let mx0 : ℚ := (if inp.aH ∨ inp.leftH then -1 else 0)
            + (if inp.dH ∨ inp.rightH then 1 else 0)
          let my0 : ℚ := (if inp.wH ∨ inp.upH then -1 else 0)
            + (if inp.sH ∨ inp.downH then 1 else 0)
          let mv : Js.V2 :=
            if mx0 = 0 ∧ my0 = 0 then
              let awx := s.cam.x + (inp.mouseX - s.viewOX)
              let awy := s.cam.y + (inp.mouseY - s.viewOY)
              Js.norm M (awx - s.player.x) (awy - s.player.y)
            else Js.norm M mx0 my0
          let s := { s with player := { s.player with
              dashT := 14/100, dashCD := 80/100,
              vx := mv.x * 820, vy := mv.y * 820 } }
          shake s 5 (10/100)
        else s
      let s :=
        if s.player.dashT ≤ 0 then
          let ax : ℚ := (if inp.aH ∨ inp.leftH then -1 else 0)
            + (if inp.dH ∨ inp.rightH then 1 else 0)
          let ay : ℚ := (if inp.wH ∨ inp.upH then -1 else 0)
            + (if inp.sH ∨ inp.downH then 1 else 0)
          if ax ≠ 0 ∨ ay ≠ 0 then
            let nn := Js.norm M ax ay
            { s with player := { s.player with
                vx := nn.x * s.player.speed, vy := nn.y * s.player.speed } }
          else
            { s with player := { s.player with
                vx := Js.lerp s.player.vx 0 (10 * dt),
                vy := Js.lerp s.player.vy 0 (10 * dt) } }
        else
          { s with player := { s.player with
              vx := Js.lerp s.player.vx 0 (5 * dt),
              vy := Js.lerp s.player.vy 0 (5 * dt) } }
      let (s, r) := if inp.mouseDown then shoot M inp s r else (s, r)
      let (s, r) := updateBurst M dt inp s r
      let s := ensureRoom s s.roomId
      match doorPhase M dt s r with
      | (s, some _, r) => (s, r)
      | (s, none, r) =>
        let room := roomAt s s.roomId
        let nxp := s.player.x + s.player.vx * dt
        let nyp := s.player.y + s.player.vy * dt
        let s := if collideCircle M nxp s.player.y s.player.r room
                 then { s with player := { s.player with vx := 0 } }
                 else { s with player := { s.player with x := nxp } }
        let s := if collideCircle M s.player.x nyp s.player.r room
                 then { s with player := { s.player with vy := 0 } }
                 else { s with player := { s.player with y := nyp } }
        let s := updateCamera dt s
        let (s, r) := updateEnemies M dt s r
        let s := updateBullets M dt s
        let s := updatePickups s
        let s := updateParticles M dt s
        (clearCheck s, r)

end Nmjs

namespace Nmjs

/-! Basic lemmas about the `ensure` helpers and the association-list state. -/

theorem ensureNode_of_isSome (s : St) (id : ℤ × ℤ)
    (h : (Js.alookup s.map id).isSome = true) : ensureNode s id = s := by
  unfold ensureNode
  obtain ⟨n, hn⟩ := Option.isSome_iff_exists.mp h
  rw [hn]

theorem ensureRoom_of_isSome (s : St) (id : ℤ × ℤ)
    (h : (Js.alookup s.rooms id).isSome = true) : ensureRoom s id = s := by
  unfold ensureRoom
  obtain ⟨rm, hrm⟩ := Option.isSome_iff_exists.mp h
  rw [hrm]

theorem ensureNode_rooms (s : St) (id : ℤ × ℤ) :
    (ensureNode s id).rooms = s.rooms := by
  unfold ensureNode
  cases Js.alookup s.map id <;> rfl

theorem ensureNode_roomId (s : St) (id : ℤ × ℤ) :
    (ensureNode s id).roomId = s.roomId := by
  unfold ensureNode
  cases Js.alookup s.map id <;> rfl

theorem ensureNode_player (s : St) (id : ℤ × ℤ) :
    (ensureNode s id).player = s.player := by
  unfold ensureNode
  cases Js.alookup s.map id <;> rfl

theorem ensureNode_enemies (s : St) (id : ℤ × ℤ) :
    (ensureNode s id).enemies = s.enemies := by
  unfold ensureNode
  cases Js.alookup s.map id <;> rfl

theorem ensureRoom_map (s : St) (id : ℤ × ℤ) :
    (ensureRoom s id).map = s.map := by
  unfold ensureRoom
  cases Js.alookup s.rooms id <;> rfl

theorem ensureRoom_roomId (s : St) (id : ℤ × ℤ) :
    (ensureRoom s id).roomId = s.roomId := by
  unfold ensureRoom
  cases Js.alookup s.rooms id <;> rfl

theorem ensureRoom_player (s : St) (id : ℤ × ℤ) :
    (ensureRoom s id).player = s.player := by
  unfold ensureRoom
  cases Js.alookup s.rooms id <;> rfl

theorem ensureRoom_enemies (s : St) (id : ℤ × ℤ) :
    (ensureRoom s id).enemies = s.enemies := by
  unfold ensureRoom
  cases Js.alookup s.rooms id <;> rfl

/-- After `ensureNode`, the node is present and equals `nodeAt s id`
(`ensureNode` inserts exactly the default that `nodeAt` falls back to). -/
theorem alookup_ensureNode_self (s : St) (id : ℤ × ℤ) :
    Js.alookup (ensureNode s id).map id = some (nodeAt s id) := by
  unfold ensureNode nodeAt
  cases h : Js.alookup s.map id with
  | none => simp [Js.alookup, h]
  | some n => simp [h]

theorem alookup_ensureRoom_self (s : St) (id : ℤ × ℤ) :
    Js.alookup (ensureRoom s id).rooms id = some (roomAt s id) := by
  unfold ensureRoom roomAt
  cases h : Js.alookup s.rooms id with
  | none => simp [Js.alookup, h]
  | some rm => simp [h]

theorem nodeAt_ensureNode (s : St) (id : ℤ × ℤ) :
    nodeAt (ensureNode s id) id = nodeAt s id := by
  unfold nodeAt
  rw [alookup_ensureNode_self]
  rfl

theorem roomAt_ensureRoom (s : St) (id : ℤ × ℤ) :
    roomAt (ensureRoom s id) id = roomAt s id := by
  unfold roomAt
  rw [alookup_ensureRoom_self]
  rfl

theorem roomAt_congr (s1 s2 : St) (id : ℤ × ℤ) (h : s1.rooms = s2.rooms) :
    roomAt s1 id = roomAt s2 id := by
  unfold roomAt
  rw [h]

theorem roomAt_ensureNode (s : St) (id id2 : ℤ × ℤ) :
    roomAt (ensureNode s id) id2 = roomAt s id2 :=
  roomAt_congr _ _ _ (ensureNode_rooms s id)

/-! Lemmas about the door-transition attempt. -/

/-- A fired transition attempt found `neighbors[dir]` and `doorsOpen[dir]`
both set in the room the attempt inspected. -/
theorem tryDoorGo_fired (M : Js.JsMath) (dir : Js.Dir) (s : St) (r : List ℚ)
    (h : (tryDoorGo M dir s r).1 = true) :
    (roomAt s s.roomId).neighbors.get dir = true
      ∧ (roomAt s s.roomId).doorsOpen.get dir = true := by
  unfold tryDoorGo at h
  by_cases h1 : (roomAt s s.roomId).neighbors.get dir = false
  · rw [if_pos h1] at h
    exact absurd h (by simp)
  · rw [if_neg h1] at h
    by_cases h2 : (roomAt s s.roomId).doorsOpen.get dir = false
    · rw [if_pos h2] at h
      cases hb : inDoorBand dir s.player.x s.player.y <;> simp [hb] at h
    · rw [if_neg h2] at h
      rw [Bool.not_eq_false] at h1 h2
      exact ⟨h1, h2⟩

/-- The state handed to `tryDoorGo` by `tryDoorTransitionByIntent`: same
`roomId`, same player, and the same room under the current key. -/
theorem tryDoor_pre (s : St) :
    (ensureRoom (ensureNode s s.roomId) s.roomId).roomId = s.roomId
    ∧ (ensureRoom (ensureNode s s.roomId) s.roomId).player = s.player
    ∧ roomAt (ensureRoom (ensureNode s s.roomId) s.roomId)
        ((ensureRoom (ensureNode s s.roomId) s.roomId).roomId)
      = roomAt s s.roomId := by
  refine ⟨?_, ?_, ?_⟩
  · rw [ensureRoom_roomId, ensureNode_roomId]
  · rw [ensureRoom_player, ensureNode_player]
  · rw [ensureRoom_roomId, ensureNode_roomId, roomAt_ensureRoom, roomAt_ensureNode]

/-- C1-supporting lemma: a transition that fires saw the neighbor flag (and
the open flag) of the current room. -/
theorem tryDoor_fired (M : Js.JsMath) (dir : Js.Dir) (s : St) (r : List ℚ)
    (h : (tryDoorTransitionByIntent M dir s r).1 = true) :
    (roomAt s s.roomId).neighbors.get dir = true
      ∧ (roomAt s s.roomId).doorsOpen.get dir = true := by
  unfold tryDoorTransitionByIntent at h
  have h2 := tryDoorGo_fired M dir _ r h
  obtain ⟨hid, _, hrm⟩ := tryDoor_pre s
  rw [hid] at h2 hrm
  rw [hrm] at h2
  exact h2

/-- The three outcomes of a transition attempt body: silent failure, failure
with the locked-door message, or success. -/
theorem tryDoorGo_cases (M : Js.JsMath) (d : Js.Dir) (s : St) (r : List ℚ) :
    tryDoorGo M d s r = (false, s, r)
    ∨ tryDoorGo M d s r = (false, { s with msg := "DOOR LOCKED", msgT := 7/10 }, r)
    ∨ (tryDoorGo M d s r).1 = true := by
  unfold tryDoorGo
  by_cases h1 : (roomAt s s.roomId).neighbors.get d = false
  · left
    rw [if_pos h1]
  · rw [if_neg h1]
    by_cases h2 : (roomAt s s.roomId).doorsOpen.get d = false
    · rw [if_pos h2]
      cases hb : inDoorBand d s.player.x s.player.y
      · left
        simp
      · right; left
        simp
    · rw [if_neg h2]
      right; right
      rfl

/-- A failed transition attempt leaves the player, the current room key, the
current room's state, and the random stream untouched (it may at most set the
locked-door message and create missing map/room entries). -/
theorem tryDoor_fail_preserves (M : Js.JsMath) (d : Js.Dir) (s : St)
    (r : List ℚ) (h : (tryDoorTransitionByIntent M d s r).1 = false) :
    (tryDoorTransitionByIntent M d s r).2.1.player = s.player
    ∧ (tryDoorTransitionByIntent M d s r).2.1.roomId = s.roomId
    ∧ roomAt (tryDoorTransitionByIntent M d s r).2.1
        ((tryDoorTransitionByIntent M d s r).2.1.roomId) = roomAt s s.roomId
    ∧ (tryDoorTransitionByIntent M d s r).2.2 = r := by
  obtain ⟨hid, hpl, hrm⟩ := tryDoor_pre s
  unfold tryDoorTransitionByIntent at h ⊢
  rcases tryDoorGo_cases M d (ensureRoom (ensureNode s s.roomId) s.roomId) r
    with hc | hc | hc
  · rw [hc]
    exact ⟨hpl, hid, hrm, rfl⟩
  · rw [hc]
    exact ⟨hpl, hid, hrm, rfl⟩
  · rw [hc] at h
    cases h

/-- The per-direction guard reads only the player. -/
theorem doorCheckDir_player_congr (d : Js.Dir) (dt : ℚ) (s1 s2 : St)
    (h : s1.player = s2.player) : doorCheckDir d dt s1 = doorCheckDir d dt s2 := by
  unfold doorCheckDir
  cases d <;> rw [h]

/-- The outward-velocity component of the guard (spec: "the player's velocity
component points outward across that boundary"). -/
def outwardVel (d : Js.Dir) (p : Player) : Prop :=
  match d with
  | Js.Dir.N => p.vy < 0
  | Js.Dir.S => p.vy > 0
  | Js.Dir.W => p.vx < 0
  | Js.Dir.E => p.vx > 0

/-- The boundary-crossing component of the guard (spec: "the projected next
position would cross the boundary"). -/
def projectedCrossing (d : Js.Dir) (dt : ℚ) (p : Player) : Prop :=
  match d with
  | Js.Dir.N => p.y + p.vy * dt ≤ 2
  | Js.Dir.S => p.y + p.vy * dt ≥ ROOM_H - 2
  | Js.Dir.W => p.x + p.vx * dt ≤ 2
  | Js.Dir.E => p.x + p.vx * dt ≥ ROOM_W - 2

theorem doorCheckDir_eq_true (d : Js.Dir) (dt : ℚ) (s : St) :
    doorCheckDir d dt s = true ↔
      outwardVel d s.player ∧ inDoorBand d s.player.x s.player.y = true
        ∧ projectedCrossing d dt s.player := by
  cases d <;> simp [doorCheckDir, outwardVel, projectedCrossing, and_assoc]

/-- A fired direction of the door phase was attempted from a state with the
same player, same room key and same current room as the tick's start, whose
guard held and whose attempt returned `true`. -/
theorem doorPhaseGo_fired (M : Js.JsMath) (dt : ℚ) :
    ∀ (ds : List Js.Dir) (s : St) (r : List ℚ) (d : Js.Dir),
      (doorPhaseGo M dt ds s r).2.1 = some d →
      ∃ s2 r2, s2.player = s.player ∧ s2.roomId = s.roomId
        ∧ roomAt s2 s2.roomId = roomAt s s.roomId
        ∧ doorCheckDir d dt s2 = true
        ∧ (tryDoorTransitionByIntent M d s2 r2).1 = true := by
  intro ds
  induction ds with
  | nil =>
    intro s r d h
    cases h
  | cons d0 ds ih =>
    intro s r d h
    unfold doorPhaseGo at h
    by_cases hg : doorCheckDir d0 dt s = true
    · rw [if_pos hg] at h
      rcases ht : tryDoorTransitionByIntent M d0 s r with ⟨fired, s2, r2⟩
      rw [ht] at h
      cases fired
      · have h2 : (doorPhaseGo M dt ds s2 r2).2.1 = some d := h
        have hfail : (tryDoorTransitionByIntent M d0 s r).1 = false := by
          rw [ht]
        obtain ⟨hp2, hi2, hr2, hs2⟩ := tryDoor_fail_preserves M d0 s r hfail
        rw [ht] at hp2 hi2 hr2
        obtain ⟨s3, r3, q1, q2, q3, q4, q5⟩ := ih s2 r2 d h2
        exact ⟨s3, r3, q1.trans hp2, q2.trans hi2,
          q3.trans (by rw [show ((false, s2, r2) : Bool × St × List ℚ).2.1.roomId
            = s2.roomId from rfl] at hr2; exact hr2), q4, q5⟩
      · have h2 : (some d0 : Option Js.Dir) = some d := h
        have hd : d = d0 := (Option.some.inj h2).symm
        subst hd
        refine ⟨s, r, rfl, rfl, rfl, hg, ?_⟩
        rw [ht]
    · rw [if_neg hg] at h
      exact ih s r d h

/-- A locked, in-band attempt: message set, nothing else, no transition. -/
theorem tryDoor_locked (M : Js.JsMath) (d : Js.Dir) (s : St) (r : List ℚ)
    (hmap : (Js.alookup s.map s.roomId).isSome = true)
    (hroom : (Js.alookup s.rooms s.roomId).isSome = true)
    (hnb : (roomAt s s.roomId).neighbors.get d = true)
    (hcl : (roomAt s s.roomId).doorsOpen.get d = false)
    (hband : inDoorBand d s.player.x s.player.y = true) :
    tryDoorTransitionByIntent M d s r
      = (false, { s with msg := "DOOR LOCKED", msgT := 7/10 }, r) := by
  unfold tryDoorTransitionByIntent
  rw [ensureNode_of_isSome s _ hmap, ensureRoom_of_isSome s _ hroom]
  unfold tryDoorGo
  rw [if_neg (by rw [hnb]; simp), if_pos hcl, hband]
  simp

theorem doorPhaseGo_cons_true (M : Js.JsMath) (dt : ℚ) (d : Js.Dir)
    (ds : List Js.Dir) (s s2 : St) (r r2 : List ℚ)
    (hg : doorCheckDir d dt s = true)
    (hfail : tryDoorTransitionByIntent M d s r = (false, s2, r2)) :
    doorPhaseGo M dt (d :: ds) s r = doorPhaseGo M dt ds s2 r2 := by
  conv_lhs => unfold doorPhaseGo
  rw [if_pos hg, hfail]

theorem doorPhaseGo_cons_false (M : Js.JsMath) (dt : ℚ) (d : Js.Dir)
    (ds : List Js.Dir) (s : St) (r : List ℚ)
    (hg : doorCheckDir d dt s = false) :
    doorPhaseGo M dt (d :: ds) s r = doorPhaseGo M dt ds s r := by
  conv_lhs => unfold doorPhaseGo
  rw [if_neg (by simp [hg])]

theorem lockDoors_get (rm : Room) (b : Bool) (d : Js.Dir) :
    (lockDoors rm b).doorsOpen.get d = !b := by
  cases d <;> rfl

theorem spawnEnemy_enemies_len (s : St) (t : String) (x y : ℚ) (depth : ℕ) :
    (spawnEnemy s t x y depth).enemies.length = s.enemies.length + 1 := by
  simp [spawnEnemy]

theorem spawnEnemy_rooms (s : St) (t : String) (x y : ℚ) (depth : ℕ) :
    (spawnEnemy s t x y depth).rooms = s.rooms := rfl

theorem spawnLoop_stats (depth : ℕ) :
    ∀ (n : ℕ) (s : St) (r : List ℚ),
      (spawnLoop s depth n r).1.enemies.length = s.enemies.length + n
      ∧ (spawnLoop s depth n r).1.rooms = s.rooms := by
  intro n
  induction n with
  | zero =>
    intro s r
    exact ⟨rfl, rfl⟩
  | succ n ih =>
    intro s r
    simp only [spawnLoop, Js.randf, Js.chance]
    constructor
    · rw [(ih _ _).1, spawnEnemy_enemies_len]
      omega
    · rw [(ih _ _).2, spawnEnemy_rooms]

theorem spawnBoss_enemies_len (M : Js.JsMath) (s : St) (x y : ℚ) (depth : ℕ)
    (r : List ℚ) :
    (spawnBoss M s x y depth r).1.enemies.length = s.enemies.length + 1 := by
  simp [spawnBoss, Js.randi, Js.randf, shake]

theorem spawnBoss_rooms (M : Js.JsMath) (s : St) (x y : ℚ) (depth : ℕ)
    (r : List ℚ) :
    (spawnBoss M s x y depth r).1.rooms = s.rooms := by
  simp [spawnBoss, Js.randi, Js.randf, shake]

/-- The initial player object (n.mjs 131–146). -/
def player0 : Player :=
  { x := ROOM_W/2, y := ROOM_H/2, r := 13, hp := 8, hpMax := 8, invT := 0,
    dashT := 0, dashCD := 0, vx := 0, vy := 0, speed := 190, weapon := 0,
    fireCD := 0, burstQ := 0, burstCD := 0 }

/-- The initial world state (n.mjs 91–107), before any room is created. -/
def st0 : St :=
  { paused := false, shopOpen := false, msg := "", msgT := 0, coins := 0,
    roomId := (0, 0), cam := ⟨0, 0, 0, 0⟩, map := [], rooms := [],
    enemies := [], bullets := [], pickups := [], fx := [],
    weapons := WEAPONS0, player := player0, viewOX := 0, viewOY := 0 }

end Nmjs

/-- C1 (counterexample): room creation itself breaks the claimed invariant.
`ensureRoom` initialises a fresh room with all four `doorsOpen` flags `true`
but all four `neighbors` flags `false`, so immediately after this mutation
`doorsOpen[N]` holds while `neighbors[N]` does not. -/
theorem nmjs_ensureRoom_violates_door_invariant :
    (Nmjs.roomAt (Nmjs.ensureRoom Nmjs.st0 (3, 4)) (3, 4)).doorsOpen.get Js.Dir.N = true
    ∧ (Nmjs.roomAt (Nmjs.ensureRoom Nmjs.st0 (3, 4)) (3, 4)).neighbors.get Js.Dir.N = false := by
  constructor
  · rfl
  · rfl

/-- C1 (amended): what the code does guarantee about door state.  `lockDoors`
always sets the four `doorsOpen` flags uniformly to `!locked` with no look at
`neighbors`, and a door transition in direction `d` fires only if the current
room's `neighbors[d]` flag is set — so an open-door flag without a neighbor
(as after room creation) can never produce a transition. -/
theorem nmjs_door_state_uniform_and_transition_requires_neighbor
    (M : Js.JsMath) (dir : Js.Dir) (s : Nmjs.St) (r : List ℚ) :
    (∀ (rm : Nmjs.Room) (b : Bool) (d : Js.Dir),
        (Nmjs.lockDoors rm b).doorsOpen.get d = !b)
    ∧ ((Nmjs.tryDoorTransitionByIntent M dir s r).1 = true →
        (Nmjs.roomAt s s.roomId).neighbors.get dir = true) := by
  constructor
  · intro rm b d
    exact Nmjs.lockDoors_get rm b d
  · intro hf
    exact (Nmjs.tryDoor_fired M dir s r hf).1

/-- C2: a door transition fires only on a committed outward push — outward
velocity component, player inside the trigger band, projected next position
past the boundary, and the door both linked and open; and a player pushing
north against a closed (but linked) north door while in-band gets the
"DOOR LOCKED" message, stays in the same room, and no transition fires. -/
theorem nmjs_transition_fires_only_on_committed_push
    (M : Js.JsMath) (dt : ℚ) (s : Nmjs.St) (r : List ℚ) :
    (∀ d : Js.Dir, (Nmjs.doorPhase M dt s r).2.1 = some d →
        Nmjs.outwardVel d s.player
        ∧ Nmjs.inDoorBand d s.player.x s.player.y = true
        ∧ Nmjs.projectedCrossing d dt s.player
        ∧ (Nmjs.roomAt s s.roomId).neighbors.get d = true
        ∧ (Nmjs.roomAt s s.roomId).doorsOpen.get d = true)
    ∧ (s.player.vy < 0 → s.player.vx = 0 →
        Nmjs.inDoorBand Js.Dir.N s.player.x s.player.y = true →
        s.player.y + s.player.vy * dt ≤ 2 →
        (Nmjs.roomAt s s.roomId).neighbors.get Js.Dir.N = true →
        (Nmjs.roomAt s s.roomId).doorsOpen.get Js.Dir.N = false →
        (Js.alookup s.map s.roomId).isSome = true →
        (Js.alookup s.rooms s.roomId).isSome = true →
        (Nmjs.doorPhase M dt s r).1.msg = "DOOR LOCKED"
        ∧ (Nmjs.doorPhase M dt s r).1.roomId = s.roomId
        ∧ (Nmjs.doorPhase M dt s r).2.1 = none) := by
  constructor
  · intro d h
    unfold Nmjs.doorPhase at h
    obtain ⟨s2, r2, hp, hid, hrm, hchk, hf⟩ :=
      Nmjs.doorPhaseGo_fired M dt [Js.Dir.N, Js.Dir.S, Js.Dir.W, Js.Dir.E] s r d h
    have hnb := Nmjs.tryDoor_fired M d s2 r2 hf
    rw [hid] at hrm
    rw [show Nmjs.roomAt s2 s2.roomId = Nmjs.roomAt s s.roomId from by
      rw [hid]; exact hrm] at hnb
    have hchk2 : Nmjs.doorCheckDir d dt s = true := by
      rw [← Nmjs.doorCheckDir_player_congr d dt s2 s hp]
      exact hchk
    obtain ⟨ho, hb, hc⟩ := (Nmjs.doorCheckDir_eq_true d dt s).mp hchk2
    exact ⟨ho, hb, hc, hnb.1, hnb.2⟩
  · intro hvy hvx hband hcross hnb hcl hmap hroom
    have hchkN : Nmjs.doorCheckDir Js.Dir.N dt s = true := by
      simp [Nmjs.doorCheckDir, hband, hvy, hcross]
    have hres := Nmjs.tryDoor_locked M Js.Dir.N s r hmap hroom hnb hcl hband
    have hpl : ({ s with msg := "DOOR LOCKED", msgT := 7/10 } : Nmjs.St).player
        = s.player := rfl
    have hS : Nmjs.doorCheckDir Js.Dir.S dt
        { s with msg := "DOOR LOCKED", msgT := 7/10 } = false := by
      simp [Nmjs.doorCheckDir, asymm hvy]
    have hW : Nmjs.doorCheckDir Js.Dir.W dt
        { s with msg := "DOOR LOCKED", msgT := 7/10 } = false := by
      simp [Nmjs.doorCheckDir, hvx]
    have hE : Nmjs.doorCheckDir Js.Dir.E dt
        { s with msg := "DOOR LOCKED", msgT := 7/10 } = false := by
      simp [Nmjs.doorCheckDir, hvx]
    unfold Nmjs.doorPhase
    rw [Nmjs.doorPhaseGo_cons_true M dt Js.Dir.N _ s _ r r hchkN hres,
      Nmjs.doorPhaseGo_cons_false M dt Js.Dir.S _ _ _ hS,
      Nmjs.doorPhaseGo_cons_false M dt Js.Dir.W _ _ _ hW,
      Nmjs.doorPhaseGo_cons_false M dt Js.Dir.E _ _ _ hE]
    exact ⟨rfl, rfl, rfl⟩

namespace Nmjs

/-- Population of an uncleared combat node spawns at least one enemy (a boss
or `4 + randi(4) + ⌊depth/4⌋ ≥ 4` normal enemies) and locks all doors of the
populated room. -/
theorem spawnRoomContents_combat (M : Js.JsMath) (s : St) (id : ℤ × ℤ)
    (r : List ℚ)
    (hkind : assignRoomKind (nodeAt s id) = "combat")
    (hcl : (nodeAt s id).cleared = false) :
    1 ≤ (spawnRoomContents M s id r).1.enemies.length
    ∧ roomAt (spawnRoomContents M s id r).1 id
        = lockDoors (roomAt s id) true := by
  have hmap2 : Js.alookup (ensureRoom (ensureNode s id) id).map id
      = some (nodeAt s id) := by
    rw [ensureRoom_map, alookup_ensureNode_self]
  have hroom2 : Js.alookup (ensureRoom (ensureNode s id) id).rooms id
      = some (roomAt s id) := by
    rw [alookup_ensureRoom_self, roomAt_ensureNode]
  have hnode : nodeAt { ensureRoom (ensureNode s id) id with
      map := Js.amap (ensureRoom (ensureNode s id) id).map id
          (fun n => { n with kind := assignRoomKind n }) } id
      = { nodeAt s id with kind := "combat" } := by
    show (Js.alookup (Js.amap (ensureRoom (ensureNode s id) id).map id
        (fun n => { n with kind := assignRoomKind n })) id).getD (freshNode id)
      = { nodeAt s id with kind := "combat" }
    rw [Js.alookup_amap_self, hmap2]
    show { nodeAt s id with kind := assignRoomKind (nodeAt s id) }
      = { nodeAt s id with kind := "combat" }
    rw [hkind]
  simp only [spawnRoomContents]
  rw [hnode]
  rw [if_neg (by simp), if_pos (by simpa using hcl)]
  by_cases hb : shouldSpawnBoss { nodeAt s id with kind := "combat" } = true
  · rw [if_pos hb]
    constructor
    · show 1 ≤ (spawnBoss M _ _ _ _ r).1.enemies.length
      rw [spawnBoss_enemies_len]
      omega
    · show (Js.alookup (Js.amap (spawnBoss M _ _ _ _ r).1.rooms id
          (fun rm => lockDoors rm true)) id).getD freshRoom = _
      rw [Js.alookup_amap_self, spawnBoss_rooms]
      show ((Js.alookup (ensureRoom (ensureNode s id) id).rooms id).map
        (fun rm => lockDoors rm true)).getD freshRoom = _
      rw [hroom2]
      rfl
  · rw [if_neg hb]
    constructor
    · show 1 ≤ (spawnLoop _ _ _ _).1.enemies.length
      rw [(spawnLoop_stats _ _ _ _).1]
      show 1 ≤ List.length [] + (4 + (Js.randi 4 r).1 + _)
      omega
    · show (Js.alookup (Js.amap (spawnLoop _ _ _ _).1.rooms id
          (fun rm => lockDoors rm true)) id).getD freshRoom = _
      rw [Js.alookup_amap_self, (spawnLoop_stats _ _ _ _).2]
      show ((Js.alookup (ensureRoom (ensureNode s id) id).rooms id).map
        (fun rm => lockDoors rm true)).getD freshRoom = _
      rw [hroom2]
      rfl

/-- The end-of-tick clear check on an uncleared combat node with no live
enemies: the node is marked cleared and the room's doors all unlock. -/
theorem clearCheck_clears (s : St)
    (hm : (Js.alookup s.map s.roomId).isSome = true)
    (hr : (Js.alookup s.rooms s.roomId).isSome = true)
    (hk : (nodeAt s s.roomId).kind = "combat")
    (hcl : (nodeAt s s.roomId).cleared = false)
    (he : s.enemies = []) :
    (nodeAt (clearCheck s) s.roomId).cleared = true
    ∧ ∀ d, (roomAt (clearCheck s) s.roomId).doorsOpen.get d = true := by
  obtain ⟨n, hn⟩ := Option.isSome_iff_exists.mp hm
  obtain ⟨rm, hrm⟩ := Option.isSome_iff_exists.mp hr
  unfold clearCheck
  rw [if_pos ⟨hcl, hk⟩, if_pos (by rw [he]; rfl)]
  constructor
  · show ((Js.alookup (Js.amap s.map s.roomId
        (fun n => { n with cleared := true })) s.roomId).getD
          (freshNode s.roomId)).cleared = true
    rw [Js.alookup_amap_self, hn]
    rfl
  · intro d
    show ((Js.alookup (Js.amap s.rooms s.roomId
        (fun rm => lockDoors rm false)) s.roomId).getD freshRoom).doorsOpen.get d
      = true
    rw [Js.alookup_amap_self, hrm]
    show (lockDoors rm false).doorsOpen.get d = true
    rw [lockDoors_get]
    rfl

end Nmjs

/-- C3: for a room whose node classifies as combat, (a) first-visit
population of the uncleared node spawns at least one enemy and leaves every
door Closed, and (b) the end-of-tick clear check of a tick that removed the
last enemy (no live enemies remain) marks the node cleared and sets every
door Open in that same tick. -/
theorem nmjs_combat_doors_closed_on_spawn_and_open_on_clear
    (M : Js.JsMath) (s : Nmjs.St) (r : List ℚ) (id : ℤ × ℤ) :
    ((Nmjs.assignRoomKind (Nmjs.nodeAt s id) = "combat" →
      (Nmjs.nodeAt s id).cleared = false →
        1 ≤ (Nmjs.spawnRoomContents M s id r).1.enemies.length
        ∧ ∀ d, (Nmjs.roomAt (Nmjs.spawnRoomContents M s id r).1 id).doorsOpen.get d
            = false))
    ∧ ((Js.alookup s.map s.roomId).isSome = true →
       (Js.alookup s.rooms s.roomId).isSome = true →
       (Nmjs.nodeAt s s.roomId).kind = "combat" →
       (Nmjs.nodeAt s s.roomId).cleared = false →
       s.enemies = [] →
         (Nmjs.nodeAt (Nmjs.clearCheck s) s.roomId).cleared = true
         ∧ ∀ d, (Nmjs.roomAt (Nmjs.clearCheck s) s.roomId).doorsOpen.get d
             = true) := by
  constructor
  · intro hkind hcl
    obtain ⟨h1, h2⟩ := Nmjs.spawnRoomContents_combat M s id r hkind hcl
    refine ⟨h1, ?_⟩
    intro d
    rw [h2, Nmjs.lockDoors_get]
    rfl
  · intro hm hr hk hcl he
    exact Nmjs.clearCheck_clears s hm hr hk hcl he

namespace Nmjs

/-- A concrete instantiation of the abstract math record (any instantiation
exhibits the counterexample; the claim theorems hold for all of them). -/
def M0 : Js.JsMath :=
  { cos := fun _ => 0, sin := fun _ => 0, sqrt := fun q => q,
    atan2 := fun _ _ => 0, powq := fun _ _ => 1, tau := 0 }

/-- No keys pressed or held, mouse up at the origin. -/
def inp0 : Input :=
  { escP := false, rP := false, fP := false, qP := false, eP := false,
    spaceP := false, shiftP := false, oneP := false, twoP := false,
    threeP := false, fourP := false, fiveP := false, sixP := false,
    sevenP := false, aH := false, dH := false, wH := false, sH := false,
    leftH := false, rightH := false, upH := false, downH := false,
    shiftH := false, mouseX := 0, mouseY := 0, mouseDown := false }

/-- A shooter far from the player (distance 320 > 210, so it rerolls its
wander velocity from `Math.random()` this tick, and > 480, so it does not
fire). -/
def shooter9 : Enemy :=
  { etype := "shooter", x := 100, y := 260, r := 18, hp := 13, vx := 0,
    vy := 0, t := 0, fireCD := 0, phase := 0, patternId := 0,
    patternName := "", spinA := 0 }

def node9 : Node :=
  { x := 5, y := 0, depth := 5, kind := "combat", seen := true,
    cleared := true }

def room9 : Room :=
  { g := List.replicate 273 1, doorsOpen := ⟨true, true, true, true⟩,
    neighbors := ⟨true, true, true, true⟩ }

/-- A mid-game state: the player resting at the room center of the cleared
combat room `(5, 0)` with one far-away shooter alive. -/
def st9 : St :=
  { paused := false, shopOpen := false, msg := "", msgT := 0, coins := 0,
    roomId := (5, 0), cam := ⟨0, 0, 0, 0⟩,
    map := [((5, 0), node9)], rooms := [((5, 0), room9)],
    enemies := [shooter9], bullets := [], pickups := [], fx := [],
    weapons := WEAPONS0, player := player0, viewOX := 60, viewOY := 10 }

end Nmjs

/-- C9 (counterexample): `update` is not a pure function of
(state, dt, inputs) — it also reads the ambient `Math.random()` stream.  Two
ticks from the very same state, same `dt = 1/60` and same (empty) inputs,
one with draws `0, 0, …` and one with draws `1/2, 1/2, …`, leave the lone
shooter with wander velocity `vx = -20` in the first run and `vx = 0` in the
second. -/
theorem nmjs_update_depends_on_random_stream :
    ((Nmjs.update Nmjs.M0 (1/60) Nmjs.inp0 Nmjs.st9 [0, 0]).1.enemies.map
        (fun e => e.vx) = [-20])
    ∧ ((Nmjs.update Nmjs.M0 (1/60) Nmjs.inp0 Nmjs.st9 [1/2, 1/2]).1.enemies.map
        (fun e => e.vx) = [0]) := by
  constructor
  · with_unfolding_all decide
  · with_unfolding_all decide

/-- C9 (amended): the per-tick step is deterministic only once the
`Math.random()` draw sequence is counted as part of the input: two runs of
`update` from equal world states, equal delta-time, equal input intents and
equal random streams produce equal successor states (and equal leftover
streams). -/
theorem nmjs_update_deterministic_given_stream
    (M : Js.JsMath) (dt1 dt2 : ℚ) (i1 i2 : Nmjs.Input) (s1 s2 : Nmjs.St)
    (r1 r2 : List ℚ) (hs : s1 = s2) (hdt : dt1 = dt2) (hi : i1 = i2)
    (hr : r1 = r2) :
    Nmjs.update M dt1 i1 s1 r1 = Nmjs.update M dt2 i2 s2 r2 := by
  subst hs hdt hi hr
  rfl

theorem nmjs_update_deterministic_given_stream_witness :
    Nmjs.update Nmjs.M0 (1/60) Nmjs.inp0 Nmjs.st9 [0, 0]
      = Nmjs.update Nmjs.M0 (1/60) Nmjs.inp0 Nmjs.st9 [0, 0] :=
  nmjs_update_deterministic_given_stream Nmjs.M0 (1/60) (1/60) Nmjs.inp0
    Nmjs.inp0 Nmjs.st9 Nmjs.st9 [0, 0] [0, 0] rfl rfl rfl rfl

namespace Freedom

/-!
Shallow embedding of the FREEDOM roguelike (`src/unnamed/part_001`, first
program, lines 1–2308).  Constants: `TILE = 12`, `ROOM_TW = 17`,
`ROOM_TH = 13`, so `ROOM_W = 204` and `ROOM_H = 156`.  The embedded slice
covers the bullet pierce rule, the treasure key gate of `tryDoorTransition`
with everything a transition runs (`spawnRoomContents`, `getRoom`,
`buildRoom`, `genRoomTiles`, the enemy/pickup constructors), and
`damagePlayer`; purely visual/DOM code (`openGameOver`'s modal, rendering)
has no state effect beyond what is embedded.  Structure fields never read by
these functions are omitted.
-/

def ROOM_W : ℚ := 204
def ROOM_H : ℚ := 156

/-- `rand(a, b) = a + Math.random() * (b - a)` (part_001 line 38). -/
def rand2 (a b : ℚ) (r : List ℚ) : ℚ × List ℚ :=
  (a + r.headD 0 * (b - a), r.tail)

/-- `randi(a, b) = (a + Math.random() * (b - a + 1)) | 0` (line 39). -/
def randi2 (a b : ℤ) (r : List ℚ) : ℤ × List ℚ :=
  (Js.jsTrunc ((a : ℚ) + r.headD 0 * ((b : ℚ) - (a : ℚ) + 1)), r.tail)

/-- A node of the floor graph (`genFloorGraph`'s `addNode`, line 329). -/
structure FNode where
  x : ℤ
  y : ℤ
  kind : String
  cleared : Bool
  seen : Bool
  locked : Bool
deriving DecidableEq

/-- One shop offer (`buildRoom`'s `offers`, lines 612–625); `weapon`/`item`
are empty for offers that do not carry them. -/
structure Offer where
  otype : String
  price : ℚ
  label : String
  weapon : String
  item : String
deriving DecidableEq

/-- Room data (`buildRoom`, lines 567–583). -/
structure FRoom where
  kind : String
  g : List ℕ
  cleared : Bool
  locked : Bool
  seen : Bool
  neighbors : Js.Doors
  doorsOpen : Js.Doors
  doorsLocked : Js.Doors
  spawnDone : Bool
  shopItems : List Offer
  decoSeed : ℤ
deriving DecidableEq

/-- A bullet (`makeBullet`, lines 509–527). -/
structure Bullet where
  owner : String
  x : ℚ
  y : ℚ
  vx : ℚ
  vy : ℚ
  r : ℚ
  dmg : ℚ
  life : ℚ
  t : ℚ
  pierce : ℕ
  bounce : ℕ
  homing : ℚ
  color : String
  chain : ℕ
  explode : ℚ
  slow : ℚ
  shock : ℚ
  fromWeapon : String
deriving DecidableEq

/-- An enemy (`makeEnemy`, lines 536–552); archetype-specific fields default
to zero/empty exactly where the JS object lacks them. -/
structure FEnemy where
  kind : String
  x : ℚ
  y : ℚ
  vx : ℚ
  vy : ℚ
  r : ℚ
  hp : ℚ
  hpMax : ℚ
  spd : ℚ
  t : ℚ
  alive : Bool
  fireCD : ℚ
  hitT : ℚ
  tier : ℕ
  frozenT : ℚ
  shockedT : ℚ
  elite : Bool
  knockX : ℚ
  knockY : ℚ
  knockT : ℚ
  touch : ℚ
  shot : ℚ
  rate : ℚ
  score : ℚ
  armor : ℚ
  ai : String
  phase : ℕ
deriving DecidableEq

/-- The `meta` object of a pickup, in the shapes the program constructs. -/
inductive FMeta
| none
| chest (opened : Bool)
| shopIdx (i : ℕ)
| item (id : String)
| weapon (id : String)
deriving DecidableEq

/-- A pickup (`makePickup`, line 528). -/
structure FPickup where
  ptype : String
  x : ℚ
  y : ℚ
  r : ℚ
  t : ℚ
  amt : ℚ
  meta : FMeta
deriving DecidableEq

/-- An effect particle (`makeFX`, line 532). -/
structure FFx where
  kind : String
  x : ℚ
  y : ℚ
  a : ℚ
  b : ℚ
  c : ℚ
  t : ℚ
deriving DecidableEq

/-- A decal (`spawnRoomContents` line 717). -/
structure FDecal where
  x : ℚ
  y : ℚ
  t : ℚ
  c : String
deriving DecidableEq

structure FCam where
  x : ℚ
  y : ℚ
  shake : ℚ
  shakeT : ℚ
deriving DecidableEq

/-- The player (`makePlayer`, lines 255 and 218–253), restricted to the
fields the embedded functions read or write. -/
structure FPlayer where
  x : ℚ
  y : ℚ
  vx : ℚ
  vy : ℚ
  r : ℚ
  hp : ℚ
  hpMax : ℚ
  shield : ℚ
  shieldMax : ℚ
  shieldDelay : ℚ
  invT : ℚ
  dashCD : ℚ
  dashT : ℚ
  rollIframes : ℚ
  speed : ℚ
deriving DecidableEq

/-- The world state (`state`, lines 181–206); `map.nodes`/`map.edges` are the
`nodes`/`edges` association lists. -/
structure St where
  mode : String
  floor : ℕ
  score : ℚ
  money : ℚ
  keys : ℤ
  roomId : ℤ × ℤ
  nodes : List ((ℤ × ℤ) × FNode)
  edges : List ((ℤ × ℤ) × List (ℤ × ℤ))
  rooms : List ((ℤ × ℤ) × FRoom)
  enemies : List FEnemy
  bullets : List Bullet
  pickups : List FPickup
  fx : List FFx
  decals : List FDecal
  cam : FCam
  msg : String
  msgT : ℚ
  bossAlive : Bool
  player : FPlayer
deriving DecidableEq

def makeFX (kind : String) (x y a b c : ℚ) : FFx :=
  ⟨kind, x, y, a, b, c, 0⟩

def makePickup (t : String) (x y amt : ℚ) (meta : FMeta) : FPickup :=
  ⟨t, x, y, 6, 0, amt, meta⟩

/-- `shake(amount, time)` (lines 841–844). -/
def shake (s : St) (amount time : ℚ) : St :=
  { s with
    cam := { s.cam with
      shake := max s.cam.shake amount, shakeT := max s.cam.shakeT time } }

/-- `hitstop(t)` (lines 846–850). -/
def hitstop (s : St) (t : ℚ) : St :=
  { s with fx := s.fx ++ [makeFX "hitstop" 0 0 t 0 0] }

/-- The 10-spark burst of `damagePlayer` (line 879). -/
def sparksLoop (s : St) (r : List ℚ) : St × List ℚ :=
  (List.range 10).foldl (fun sr _ =>
    let (a, r) := rand2 (-120) 120 sr.2
    let (b, r) := rand2 (-120) 120 r
    ({ sr.1 with fx := sr.1.fx ++
        [makeFX "spark" sr.1.player.x sr.1.player.y a b (22/100)] }, r)) (s, r)

/-- `damagePlayer(dmg, srcX, srcY)` (lines 852–886): no-op while invulnerable,
shield absorbs first, then hp loss, i-frames, knockback away from the source,
shake/hitstop/sparks, and the game-over transition at 0 hp (`openGameOver`
itself only redundantly re-sets `mode` and builds DOM). -/
def damagePlayer (M : Js.JsMath) (s : St) (dmg : ℚ) (src : Option (ℚ × ℚ))
    (r : List ℚ) : St × List ℚ :=
  if s.player.invT > 0 then (s, r)
  else
    let remaining := dmg
    let sr2 : St × ℚ :=
      if s.player.shield > 0 then
        let take := min s.player.shield remaining
        ({ s with
          player := { s.player with
            shield := s.player.shield - take, shieldDelay := 18/10 } },
          remaining - take)
      else (s, remaining)
    let s := sr2.1
    let remaining := sr2.2
    if remaining > 0 then
      let s := { s with
        player := { s.player with
          hp := s.player.hp - remaining,
          invT := s.player.rollIframes, shieldDelay := 22/10 } }
      let s := match src with
        | some (sx, sy) =>
            let n := Js.norm M (s.player.x - sx) (s.player.y - sy)
            { s with
              player := { s.player with
                vx := s.player.vx + n.x * 120, vy := s.player.vy + n.y * 120 } }
        | none => s
      let s := shake s 5 (12/100)
      let s := hitstop s (5/100)
      let sr3 := sparksLoop s r
      let s := sr3.1
      let r := sr3.2
      if s.player.hp ≤ 0 then
        ({ s with player := { s.player with hp := 0 }, mode := "gameover" }, r)
      else (s, r)
    else (s, r)

/-- The per-hit pierce rule of the player-bullet loop (lines 1895–1901):
a positive pierce budget is spent (`pierce -= 1; dmg *= 0.78`) and the
bullet survives, otherwise the bullet is spliced out. -/
def bulletAfterEnemyHit (b : Bullet) : Option Bullet :=
  if 0 < b.pierce then
    some { b with pierce := b.pierce - 1, dmg := b.dmg * (78/100) }
  else none

/-- The bullet surviving `n` consumed enemy hits (applying the pierce rule
once per hit, across ticks). -/
def hitsSurvived (b : Bullet) : ℕ → Option Bullet
| 0 => some b
| n + 1 => (hitsSurvived b n).bind bulletAfterEnemyHit

end Freedom

namespace Freedom

/-- The `(id, tier)` projection of the `Weapons` table (lines 259–267), in
entry order; `rollWeaponId` reads nothing else of it. -/
def WeaponsTier : List (String × ℕ) :=
  [("starter_pistol", 1), ("smg", 2), ("shotgun", 2), ("rail", 3),
   ("tesla", 3), ("bloom", 4), ("voidLauncher", 4)]

/-- The `(id, tier)` projection of the `Items` list (lines 287–303). -/
def ItemsTier : List (String × ℕ) :=
  [("glass_heart", 2), ("neon_lungs", 1), ("ion_cap", 2), ("crit_implant", 2),
   ("lucky_coin", 1), ("mag_coil", 2), ("phase_boots", 3), ("vamp_wires", 3),
   ("spike_jacket", 2), ("cryoshard", 3), ("shocknode", 3), ("homing_sig", 4),
   ("pierce_pin", 3), ("ricochet", 2), ("split_core", 4)]

/-- `rollWeaponId(minTier)` (lines 653–658). -/
def rollWeaponId (minTier : ℕ) (r : List ℚ) : String × List ℚ :=
  let pool := (WeaponsTier.filter
    (fun p => decide (minTier ≤ p.2) && decide (p.1 ≠ "starter_pistol"))).map
    (fun p => p.1)
  if pool.length = 0 then ("smg", r)
  else
    let (i, r) := randi2 0 ((pool.length : ℤ) - 1) r
    (pool.getD i.toNat "smg", r)

/-- `rollItemId(minTier)` (lines 659–663). -/
def rollItemId (minTier : ℕ) (r : List ℚ) : String × List ℚ :=
  let pool := (ItemsTier.filter (fun p => decide (minTier ≤ p.2))).map
    (fun p => p.1)
  if pool.length = 0 then
    let (i, r) := randi2 0 ((ItemsTier.length : ℤ) - 1) r
    ((ItemsTier.getD i.toNat ("", 0)).1, r)
  else
    let (i, r) := randi2 0 ((pool.length : ℤ) - 1) r
    (pool.getD i.toNat "", r)

/-- `g[x + y*ROOM_TW] = v` for the 17×13 grid. -/
def fset (g : List ℕ) (x y : ℤ) (v : ℕ) : List ℕ :=
  g.set (x + y * 17).toNat v

/-- The obstacle-scatter loop of `genRoomTiles` (lines 459–465). -/
def blocksLoop (density pits : ℚ) : List ℕ → ℕ → List ℚ → List ℕ × List ℚ
| g, 0, r => (g, r)
| g, n + 1, r =>
    let (x, r) := randi2 2 14 r
    let (y, r) := randi2 2 10 r
    let (c1, r) := Js.chance density r
    let g := if c1 then fset g x y 4 else g
    let (c2, r) := Js.chance pits r
    let g := if c2 then fset g x y 2 else g
    let (c3, r) := Js.chance (5/100) r
    let g := if c3 then fset g x y 3 else g
    blocksLoop density pits g n r

/-- The shop decor loop of `genRoomTiles` (lines 473–476). -/
def shopDecorLoop : List ℕ → ℕ → List ℚ → List ℕ × List ℚ
| g, 0, r => (g, r)
| g, n + 1, r =>
    let (x, r) := randi2 2 14 r
    let (y, r) := randi2 2 10 r
    let (c, r) := Js.chance (6/10) r
    let g := if c then fset g x y 3 else g
    shopDecorLoop g n r

/-- `genRoomTiles(kind)` (lines 425–481): all-floor grid, boundary walls,
all four door gaps carved with frame tiles, random blocks/pits/puddles,
cleared 3×3 center, and the shop's hazard scrub plus decor pass. -/
def genRoomTiles (kind : String) (r : List ℚ) : List ℕ × List ℚ :=
  let g := List.replicate (17 * 13) 1
  let g := (List.range 17).foldl (fun g x => fset (fset g (x : ℤ) 0 0) (x : ℤ) 12 0) g
  let g := (List.range 13).foldl (fun g y => fset (fset g 0 (y : ℤ) 0) 16 (y : ℤ) 0) g
  let g := fset (fset (fset g 8 0 1) 7 0 5) 9 0 5
  let g := fset (fset (fset g 8 12 1) 7 12 5) 9 12 5
  let g := fset (fset (fset g 0 6 1) 0 5 5) 0 7 5
  let g := fset (fset (fset g 16 6 1) 16 5 5) 16 7 5
  let density : ℚ :=
    if kind = "boss" then 1/10
    else if kind = "elite" then 18/100
    else if kind = "treasure" then 1/10
    else 16/100
  let pits : ℚ := if kind = "shop" ∨ kind = "treasure" then 5/100 else 1/10
  let (g, r) := blocksLoop density pits g 120 r
  let g := (List.range 3).foldl (fun g yi =>
    (List.range 3).foldl (fun g xi => fset g (7 + (xi : ℤ)) (5 + (yi : ℤ)) 1) g) g
  if kind = "shop" then
    let g := g.map (fun t => if t = 2 ∨ t = 3 then 1 else t)
    shopDecorLoop g 25 r
  else (g, r)

/-- `buildRoom(node, neighbors)` (lines 567–645): tiles, door-open rules by
kind, boss door locks, and the shop inventory roll. -/
def buildRoom (floor : ℕ) (node : FNode) (neighbors : Js.Doors)
    (r : List ℚ) : FRoom × List ℚ :=
  let (g, r) := genRoomTiles node.kind r
  let (seed, r) := randi2 0 1000000000 r
  let room : FRoom :=
    { kind := node.kind, g := g, cleared := node.cleared,
      locked := node.locked, seen := node.seen, neighbors := neighbors,
      doorsOpen := ⟨false, false, false, false⟩,
      doorsLocked := ⟨false, false, false, false⟩,
      spawnDone := false, shopItems := [], decoSeed := seed }
  let combat := node.kind = "normal" ∨ node.kind = "elite" ∨ node.kind = "boss"
  let room := if ¬combat ∨ room.cleared = true
    then { room with doorsOpen := neighbors } else room
  let room := if node.kind = "boss" ∧ room.cleared = false
    then { room with doorsLocked := neighbors,
                     doorsOpen := ⟨false, false, false, false⟩ }
    else room
  if node.kind = "shop" then
    let o1 : Offer := ⟨"heal", 18 + (floor : ℚ) * 4, "Medkit (+35 HP)", "", ""⟩
    let o2 : Offer := ⟨"shield", 16 + (floor : ℚ) * 4, "Shield Cell (+25 SH)", "", ""⟩
    let (c1, r) := Js.chance (55/100) r
    let or3 : Offer × List ℚ :=
      if c1 then
        let (w, r) := rollWeaponId (2 + (if 2 < floor then 1 else 0)) r
        (⟨"weapon", 36 + (floor : ℚ) * 8, "", w, ""⟩, r)
      else
        let (it, r) := rollItemId (2 + (if 2 < floor then 1 else 0)) r
        (⟨"item", 42 + (floor : ℚ) * 8, "", "", it⟩, r)
    let (c2, r) := Js.chance (5/10) or3.2
    let or4 : Offer × List ℚ :=
      if c2 then
        let (w, r) := rollWeaponId (2 + (if 3 < floor then 1 else 0)) r
        (⟨"weapon", 48 + (floor : ℚ) * 10, "", w, ""⟩, r)
      else
        let (it, r) := rollItemId (3 + (if 3 < floor then 1 else 0)) r
        (⟨"item", 56 + (floor : ℚ) * 10, "", "", it⟩, r)
    ({ room with shopItems := [o1, o2, or3.1, or4.1], doorsOpen := neighbors },
      or4.2)
  else if node.kind = "treasure" then
    ({ room with doorsOpen := neighbors }, r)
  else if node.kind = "key" then
    ({ room with doorsOpen := neighbors }, r)
  else (room, r)

def getRoomNode (s : St) (id : ℤ × ℤ) : Option FNode :=
  Js.alookup s.nodes id

/-- `getNeighbors(roomId)` (lines 680–691): edge-set membership in the four
directions. -/
def getNeighbors (s : St) (id : ℤ × ℤ) : Js.Doors :=
  match Js.alookup s.nodes id with
  | none => ⟨false, false, false, false⟩
  | some node =>
    match Js.alookup s.edges id with
    | none => ⟨false, false, false, false⟩
    | some es =>
        ⟨decide ((node.x, node.y - 1) ∈ es), decide ((node.x, node.y + 1) ∈ es),
         decide ((node.x - 1, node.y) ∈ es), decide ((node.x + 1, node.y) ∈ es)⟩

/-- `getRoom(roomId)` (lines 693–704): look up, or build and store. -/
def getRoom (s : St) (id : ℤ × ℤ) (r : List ℚ) :
    Option FRoom × St × List ℚ :=
  match Js.alookup s.rooms id with
  | some rm => (some rm, s, r)
  | none =>
    match Js.alookup s.nodes id with
    | none => (none, s, r)
    | some node =>
      let rm := (buildRoom s.floor node (getNeighbors s id) r).1
      (some rm, { s with rooms := (id, rm) :: s.rooms },
        (buildRoom s.floor node (getNeighbors s id) r).2)

/-- `makeEnemy(kind, x, y, tier)` (lines 536–552); the base `fireCD` draw is
consumed before the archetype overrides. -/
def makeEnemy (kind : String) (x y : ℚ) (tier : ℕ) (r : List ℚ) :
    FEnemy × List ℚ :=
  let (fcd, r) := rand2 (2/10) 1 r
  let t : ℚ := tier
  let e : FEnemy :=
    { kind := kind, x := x, y := y, vx := 0, vy := 0, r := 6, hp := 30,
      hpMax := 30, spd := 48, t := 0, alive := true, fireCD := fcd, hitT := 0,
      tier := tier, frozenT := 0, shockedT := 0, elite := false, knockX := 0,
      knockY := 0, knockT := 0, touch := 0, shot := 0, rate := 0, score := 0,
      armor := 0, ai := "", phase := 0 }
  let e := if kind = "runner" then
      { e with
        hp := 26 + t*6, hpMax := 26 + t*6, spd := 64 + t*6, r := 28/5,
        touch := 10 + t*2, score := 20 + t*5, ai := "chase" } else e
  let e := if kind = "shooter" then
      { e with
        hp := 22 + t*7, hpMax := 22 + t*7, spd := 40 + t*3, r := 6,
        shot := 10 + t*2, rate := 110/100 - t*(4/100), score := 26 + t*7,
        ai := "kite" } else e
  let e := if kind = "drone" then
      { e with
        hp := 18 + t*6, hpMax := 18 + t*6, spd := 58 + t*4, r := 26/5,
        shot := 8 + t*2, rate := 85/100 - t*(3/100), score := 28 + t*7,
        ai := "orbit" } else e
  let e := if kind = "turret" then
      { e with
        hp := 34 + t*10, hpMax := 34 + t*10, spd := 0, r := 36/5,
        shot := 12 + t*3, rate := 70/100 - t*(2/100), score := 35 + t*10,
        ai := "turret" } else e
  let e := if kind = "brute" then
      { e with
        hp := 60 + t*12, hpMax := 60 + t*12, spd := 34 + t*2, r := 41/5,
        touch := 18 + t*3, score := 50 + t*14, ai := "chase", armor := 1/5 }
    else e
  let e := if kind = "spitter" then
      { e with
        hp := 26 + t*8, hpMax := 26 + t*8, spd := 38 + t*2, r := 31/5,
        shot := 9 + t*2, rate := 9/10 - t*(3/100), score := 32 + t*8,
        ai := "lob" } else e
  let e := if kind = "boss_proxy" then
      { e with
        hp := 520 + t*140, hpMax := 520 + t*140, spd := 38 + t*2,
        r := 13, score := 500, ai := "boss", phase := 1, fireCD := 8/10 }
    else e
  (e, r)

/-- `makeElite(e)` (lines 554–565). -/
def makeElite (e : FEnemy) : FEnemy :=
  let hm : ℚ := ((Js.jsTrunc (e.hpMax * (7/4))) : ℚ)
  { e with
    elite := true, hpMax := hm, hp := hm, spd := e.spd * (27/25),
    r := e.r * (53/50), shot := e.shot * (5/4), touch := e.touch * (5/4),
    score := ((Js.jsTrunc (e.score * (9/5))) : ℚ) }

/-- The decal loop of `spawnRoomContents` (lines 713–718); the color draw is
consumed only when the decal is placed. -/
def decalsLoop : St → ℕ → List ℚ → St × List ℚ
| s, 0, r => (s, r)
| s, n + 1, r =>
    let (x, r) := rand2 18 (ROOM_W - 18) r
    let (y, r) := rand2 18 (ROOM_H - 18) r
    let (c, r) := Js.chance (6/10) r
    if c then
      let (c2, r) := Js.chance (5/10) r
      decalsLoop { s with decals := s.decals ++
        [{ x := x, y := y, t := 0, c := if c2 then "#7c5cff" else "#ff3bd4" }] } n r
    else decalsLoop s n r

/-- The combat enemy loop of `spawnRoomContents` (lines 774–784). -/
def enemiesLoop (floor : ℕ) (isElite : Bool) (baseTier : ℕ) :
    St → ℕ → List ℚ → St × List ℚ
| s, 0, r => (s, r)
| s, n + 1, r =>
    let (x, r) := rand2 40 (ROOM_W - 40) r
    let (y, r) := rand2 30 (ROOM_H - 30) r
    let kinds := ["runner", "shooter", "drone", "spitter", "turret"]
      ++ (if 2 ≤ floor then ["brute"] else [])
    let (ki, r) := randi2 0 ((kinds.length : ℤ) - 1) r
    let (e, r) := makeEnemy (kinds.getD ki.toNat "runner") x y baseTier r
    let er : FEnemy × List ℚ :=
      if isElite then
        let (c, r) := Js.chance (35/100) r
        (if c then makeElite e else e, r)
      else (e, r)
    enemiesLoop floor isElite baseTier
      { s with enemies := s.enemies ++ [er.1] } n er.2

/-- `spawnRoomContents(roomId)` (lines 706–789).  `getRoom` runs before the
guard, as in the source (it may build and store the room even when the guard
then returns). -/
def spawnRoomContents (s : St) (id : ℤ × ℤ) (r : List ℚ) : St × List ℚ :=
  let node? := getRoomNode s id
  let gr := getRoom s id r
  let s := gr.2.1
  let r := gr.2.2
  match node?, gr.1 with
  | some node, some room =>
    if room.spawnDone then (s, r)
    else
      let roomsSD := Js.amap s.rooms id (fun rm => { rm with spawnDone := true })
      let s := { s with rooms := roomsSD }
      let (decoN, r) := randi2 0 10 r
      let (s, r) := decalsLoop s (8 + decoN).toNat r
      if node.kind = "key" ∧ node.cleared = false then
        let pk := [makePickup "key" (ROOM_W * (5/10)) (ROOM_H * (5/10)) 1 FMeta.none]
        let s := { s with pickups := s.pickups ++ pk }
        let nodesC := Js.amap s.nodes id (fun n => { n with cleared := true })
        let s := { s with nodes := nodesC }
        let roomsC := Js.amap s.rooms id (fun rm => { rm with cleared := true })
        let s := { s with rooms := roomsC }
        let roomsDO := Js.amap s.rooms id (fun rm => { rm with doorsOpen := rm.neighbors })
        ({ s with rooms := roomsDO }, r)
      else if node.kind = "treasure" ∧ node.cleared = false then
        let pk := [makePickup "chest" (ROOM_W * (5/10)) (ROOM_H * (5/10)) 1
          (FMeta.chest false)]
        let s := { s with pickups := s.pickups ++ pk }
        let roomsDO := Js.amap s.rooms id (fun rm => { rm with doorsOpen := rm.neighbors })
        ({ s with rooms := roomsDO }, r)
      else if node.kind = "shop" ∧ node.cleared = false then
        let pk := (List.range room.shopItems.length).map (fun (i : ℕ) =>
          makePickup "shop" (ROOM_W * (5/10) + ((i : ℚ) - 1) * 44)
            (ROOM_H * (5/10) + 10) 1 (FMeta.shopIdx i))
        let s := { s with pickups := s.pickups ++ pk }
        let roomsDO := Js.amap s.rooms id (fun rm => { rm with doorsOpen := rm.neighbors })
        let s := { s with rooms := roomsDO }
        let nodesC := Js.amap s.nodes id (fun n => { n with cleared := true })
        let s := { s with nodes := nodesC }
        let roomsC := Js.amap s.rooms id (fun rm => { rm with cleared := true })
        ({ s with rooms := roomsC }, r)
      else if ¬(node.kind = "normal" ∨ node.kind = "elite" ∨ node.kind = "boss")
          ∨ node.cleared = true then
        let roomsDO := Js.amap s.rooms id (fun rm => { rm with doorsOpen := rm.neighbors })
        ({ s with rooms := roomsDO }, r)
      else
        let roomsSh := Js.amap s.rooms id
          (fun rm => { rm with doorsOpen := ⟨false, false, false, false⟩ })
        let s := { s with rooms := roomsSh }
        let baseTier := 1 + (Js.jsTrunc (((s.floor : ℚ) - 1) * (45/100))).toNat
        if node.kind = "boss" then
          let (e, r) := makeEnemy "boss_proxy" (ROOM_W * (5/10))
            (ROOM_H * (45/100)) baseTier r
          let s := { s with enemies := s.enemies ++ [e], bossAlive := true }
          ({ s with msg := "BOSS: MIRROR EXECUTOR", msgT := 16/10 }, r)
        else
          let count := if node.kind = "elite" then 7 + s.floor * 2
            else 5 + s.floor * 2
          let (s, r) := enemiesLoop s.floor (decide (node.kind = "elite"))
            baseTier s count r
          ({ s with msg := if node.kind = "elite" then "ELITE SECTOR"
              else "CLEAR THE ROOM", msgT := 12/10 }, r)
  | _, _ => (s, r)

/-- The room-switch tail of `go` (lines 1205–1220): set `roomId`, mark the
node seen, reposition the player to the opposite side, clear bullets, and
populate the room. -/
def goSwitch (s : St) (nid : ℤ × ℤ) (dirFrom : Js.Dir) (r : List ℚ) :
    St × List ℚ :=
  let s := { s with roomId := nid }
  let nodesSeen := Js.amap s.nodes nid (fun n => { n with seen := true })
  let s := { s with nodes := nodesSeen }
  let p := s.player
  let p := match dirFrom with
    | Js.Dir.N => { p with y := ROOM_H - 14 }
    | Js.Dir.S => { p with y := 14 }
    | Js.Dir.W => { p with x := ROOM_W - 14 }
    | Js.Dir.E => { p with x := 14 }
  let s := { s with player := p, bullets := [] }
  spawnRoomContents s s.roomId r

/-- The `go(dx, dy, dirFrom)` closure of `tryDoorTransition`
(lines 1186–1220): the treasure key gate, then the room switch. -/
def go (s : St) (node : FNode) (d : ℤ × ℤ) (dirFrom : Js.Dir) (r : List ℚ) :
    St × List ℚ :=
  let nid := (node.x + d.1, node.y + d.2)
  match getRoomNode s nid with
  | none => (s, r)
  | some nextNode =>
    let gate := nextNode.kind = "treasure" ∧ nextNode.locked = true
      ∧ nextNode.cleared = false
    if gate ∧ s.keys ≤ 0 then
      ({ s with msg := "TREASURE LOCKED — NEED KEY", msgT := 1 }, r)
    else
      let s := if gate then
          { s with
            keys := s.keys - 1,
            nodes := Js.amap s.nodes nid (fun n => { n with locked := false }),
            msg := "LOCK UNSEALED", msgT := 1 }
        else s
      goSwitch s nid dirFrom r

/-- `tryDoorTransition(room)` (lines 1176–1224). -/
def tryDoorTransition (s : St) (room : FRoom) (r : List ℚ) : St × List ℚ :=
  match getRoomNode s s.roomId with
  | none => (s, r)
  | some node =>
    let nearTop := decide (s.player.y < 8)
      && decide (|s.player.x - ROOM_W * (5/10)| < 18)
    let nearBot := decide (s.player.y > ROOM_H - 8)
      && decide (|s.player.x - ROOM_W * (5/10)| < 18)
    let nearLeft := decide (s.player.x < 8)
      && decide (|s.player.y - ROOM_H * (5/10)| < 18)
    let nearRight := decide (s.player.x > ROOM_W - 8)
      && decide (|s.player.y - ROOM_H * (5/10)| < 18)
    if nearTop && room.neighbors.n && room.doorsOpen.n then
      go s node (0, -1) Js.Dir.N r
    else if nearBot && room.neighbors.s && room.doorsOpen.s then
      go s node (0, 1) Js.Dir.S r
    else if nearLeft && room.neighbors.w && room.doorsOpen.w then
      go s node (-1, 0) Js.Dir.W r
    else if nearRight && room.neighbors.e && room.doorsOpen.e then
      go s node (1, 0) Js.Dir.E r
    else (s, r)

end Freedom

namespace Freedom

/-- A bullet that has survived `n ≤ pierce` consumed hits has `pierce - n`
budget left. -/
theorem hitsSurvived_spec (b : Bullet) :
    ∀ n, n ≤ b.pierce →
      ∃ b2, hitsSurvived b n = some b2 ∧ b2.pierce = b.pierce - n := by
  intro n
  induction n with
  | zero =>
    intro _
    exact ⟨b, rfl, rfl⟩
  | succ n ih =>
    intro h
    obtain ⟨b2, hb2, hp2⟩ := ih (Nat.le_of_succ_le h)
    refine ⟨{ b2 with pierce := b2.pierce - 1, dmg := b2.dmg * (78/100) }, ?_, ?_⟩
    · show (hitsSurvived b n).bind bulletAfterEnemyHit = _
      rw [hb2]
      show bulletAfterEnemyHit b2 = _
      unfold bulletAfterEnemyHit
      rw [if_pos (by omega : 0 < b2.pierce)]
    · show b2.pierce - 1 = b.pierce - (n + 1)
      omega

/-- `getRoom` may build and store a room but touches nothing else. -/
theorem getRoom_preserves (s : St) (id : ℤ × ℤ) (r : List ℚ) :
    (getRoom s id r).2.1.keys = s.keys
    ∧ (getRoom s id r).2.1.nodes = s.nodes
    ∧ (getRoom s id r).2.1.msg = s.msg
    ∧ (getRoom s id r).2.1.msgT = s.msgT
    ∧ (getRoom s id r).2.1.roomId = s.roomId := by
  unfold getRoom
  cases Js.alookup s.rooms id
  · cases Js.alookup s.nodes id
    · exact ⟨rfl, rfl, rfl, rfl, rfl⟩
    · exact ⟨rfl, rfl, rfl, rfl, rfl⟩
  · exact ⟨rfl, rfl, rfl, rfl, rfl⟩

/-- The decal loop only appends decals and consumes draws. -/
theorem decalsLoop_preserves :
    ∀ (n : ℕ) (s : St) (r : List ℚ),
      (decalsLoop s n r).1.keys = s.keys
      ∧ (decalsLoop s n r).1.nodes = s.nodes
      ∧ (decalsLoop s n r).1.msg = s.msg
      ∧ (decalsLoop s n r).1.msgT = s.msgT
      ∧ (decalsLoop s n r).1.roomId = s.roomId := by
  intro n
  induction n with
  | zero =>
    intro s r
    exact ⟨rfl, rfl, rfl, rfl, rfl⟩
  | succ n ih =>
    intro s r
    simp only [decalsLoop, rand2, Js.chance]
    split
    · exact ih _ _
    · exact ih _ _

/-- Populating a room whose node (if any) is an uncleared treasure room adds
a chest and opens doors but leaves the key count, the node table, the current
room key and the message untouched. -/
theorem spawnRoomContents_treasure_preserves (s : St) (id : ℤ × ℤ)
    (r : List ℚ)
    (h : ∀ node, getRoomNode s id = some node →
      node.kind = "treasure" ∧ node.cleared = false) :
    (spawnRoomContents s id r).1.keys = s.keys
    ∧ (spawnRoomContents s id r).1.nodes = s.nodes
    ∧ (spawnRoomContents s id r).1.msg = s.msg
    ∧ (spawnRoomContents s id r).1.msgT = s.msgT
    ∧ (spawnRoomContents s id r).1.roomId = s.roomId := by
  obtain ⟨g1, g2, g3, g4, g5⟩ := getRoom_preserves s id r
  rcases hgr : getRoom s id r with ⟨ro, s2, r2⟩
  rw [hgr] at g1 g2 g3 g4 g5
  unfold spawnRoomContents
  rw [hgr]
  cases hnd : getRoomNode s id with
  | none =>
    cases ro with
    | none => exact ⟨g1, g2, g3, g4, g5⟩
    | some room => exact ⟨g1, g2, g3, g4, g5⟩
  | some node =>
    obtain ⟨hk, hc⟩ := h node hnd
    cases ro with
    | none => exact ⟨g1, g2, g3, g4, g5⟩
    | some room =>
      dsimp only [randi2]
      by_cases hsd : room.spawnDone = true
      · rw [if_pos hsd]
        exact ⟨g1, g2, g3, g4, g5⟩
      · rw [if_neg hsd]
        have hkey : ¬(node.kind = "key" ∧ node.cleared = false) := by
          rw [hk]
          simp
        rw [if_neg hkey, if_pos ⟨hk, hc⟩]
        refine ⟨?_, ?_, ?_, ?_, ?_⟩
        · rw [(decalsLoop_preserves _ _ _).1]
          exact g1
        · rw [(decalsLoop_preserves _ _ _).2.1]
          exact g2
        · rw [(decalsLoop_preserves _ _ _).2.2.1]
          exact g3
        · rw [(decalsLoop_preserves _ _ _).2.2.2.1]
          exact g4
        · rw [(decalsLoop_preserves _ _ _).2.2.2.2]
          exact g5

/-- The room-switch tail on a treasure target: key count and message are
kept, the node table is touched only by the seen mark, and the room key
becomes the target. -/
theorem goSwitch_facts (s : St) (nid : ℤ × ℤ) (dirFrom : Js.Dir)
    (r : List ℚ)
    (h : ∀ n2, Js.alookup s.nodes nid = some n2 →
      n2.kind = "treasure" ∧ n2.cleared = false) :
    (goSwitch s nid dirFrom r).1.keys = s.keys
    ∧ Js.alookup (goSwitch s nid dirFrom r).1.nodes nid
        = (Js.alookup s.nodes nid).map (fun n => { n with seen := true })
    ∧ (goSwitch s nid dirFrom r).1.roomId = nid
    ∧ (goSwitch s nid dirFrom r).1.msg = s.msg := by
  have h2 : ∀ (st : St), st.nodes = Js.amap s.nodes nid
      (fun n => { n with seen := true }) →
      ∀ n2, getRoomNode st nid = some n2 →
        n2.kind = "treasure" ∧ n2.cleared = false := by
    intro st hst n2 hn2
    unfold getRoomNode at hn2
    rw [hst, Js.alookup_amap_self] at hn2
    cases hl2 : Js.alookup s.nodes nid with
    | none =>
      rw [hl2] at hn2
      cases hn2
    | some n0 =>
      rw [hl2] at hn2
      cases hn2
      exact h n0 hl2
  unfold goSwitch
  dsimp only
  refine ⟨?_, ?_, ?_, ?_⟩
  · rw [(spawnRoomContents_treasure_preserves _ _ r (h2 _ rfl)).1]
  · rw [(spawnRoomContents_treasure_preserves _ _ r (h2 _ rfl)).2.1]
    exact Js.alookup_amap_self _ _ _
  · rw [(spawnRoomContents_treasure_preserves _ _ r (h2 _ rfl)).2.2.2.2]
  · rw [(spawnRoomContents_treasure_preserves _ _ r (h2 _ rfl)).2.2.1]

end Freedom

/-- C5: a player bullet carrying `pierce = n` survives its first `n` consumed
enemy hits (each spending one pierce and attenuating damage) and is destroyed
on hit `n + 1` — unless lifetime/bounce removal, handled elsewhere in the
bullet loop, removes it before those hits happen. -/
theorem freedom_bullet_pierce_hits (b : Freedom.Bullet) :
    (Freedom.hitsSurvived b b.pierce).isSome = true
    ∧ Freedom.hitsSurvived b (b.pierce + 1) = none := by
  obtain ⟨b2, hb2, hp2⟩ := Freedom.hitsSurvived_spec b b.pierce (le_refl _)
  constructor
  · rw [hb2]
    rfl
  · show (Freedom.hitsSurvived b b.pierce).bind Freedom.bulletAfterEnemyHit = none
    rw [hb2]
    show Freedom.bulletAfterEnemyHit b2 = none
    unfold Freedom.bulletAfterEnemyHit
    rw [if_neg (by omega : ¬ 0 < b2.pierce)]

/-- C6: attempting a door transition into a locked, uncleared treasure room —
with at least one key: the key count drops by one, the target node's `locked`
flag ends `false` (and it is marked seen), the room switch happens and the
"LOCK UNSEALED" message stands; with no keys: the attempt returns the state
unchanged except for the "TREASURE LOCKED — NEED KEY" message, so keys,
`locked` and the current room are untouched. -/
theorem freedom_treasure_key_gate
    (s : Freedom.St) (node nextNode : Freedom.FNode) (d : ℤ × ℤ)
    (dir : Js.Dir) (r : List ℚ)
    (hn : Freedom.getRoomNode s (node.x + d.1, node.y + d.2) = some nextNode)
    (hk : nextNode.kind = "treasure")
    (hl : nextNode.locked = true)
    (hc : nextNode.cleared = false) :
    (0 < s.keys →
      (Freedom.go s node d dir r).1.keys = s.keys - 1
      ∧ Js.alookup (Freedom.go s node d dir r).1.nodes (node.x + d.1, node.y + d.2)
          = some { nextNode with locked := false, seen := true }
      ∧ (Freedom.go s node d dir r).1.roomId = (node.x + d.1, node.y + d.2)
      ∧ (Freedom.go s node d dir r).1.msg = "LOCK UNSEALED")
    ∧ (s.keys ≤ 0 →
      Freedom.go s node d dir r
        = ({ s with msg := "TREASURE LOCKED — NEED KEY", msgT := 1 }, r)) := by
  constructor
  · intro hkeys
    simp only [Freedom.go]
    rw [hn]
    dsimp only
    rw [if_neg (fun hcon => absurd hcon.2 (by omega)), if_pos ⟨hk, hl, hc⟩]
    have hside : ∀ n2, Js.alookup (Js.amap s.nodes (node.x + d.1, node.y + d.2)
        (fun n => { n with locked := false })) (node.x + d.1, node.y + d.2)
        = some n2 → n2.kind = "treasure" ∧ n2.cleared = false := by
      intro n2 hn2
      rw [Js.alookup_amap_self,
        show Js.alookup s.nodes (node.x + d.1, node.y + d.2)
          = some nextNode from hn] at hn2
      cases hn2
      exact ⟨hk, hc⟩
    have hfacts := Freedom.goSwitch_facts
      { s with
        keys := s.keys - 1,
        nodes := Js.amap s.nodes (node.x + d.1, node.y + d.2)
          (fun n => { n with locked := false }),
        msg := "LOCK UNSEALED", msgT := 1 }
      (node.x + d.1, node.y + d.2) dir r hside
    refine ⟨?_, ?_, ?_, ?_⟩
    · rw [hfacts.1]
    · rw [hfacts.2.1]
      show (Js.alookup (Js.amap s.nodes (node.x + d.1, node.y + d.2)
        (fun n => { n with locked := false })) (node.x + d.1, node.y + d.2)).map _ = _
      rw [Js.alookup_amap_self,
        show Js.alookup s.nodes (node.x + d.1, node.y + d.2)
          = some nextNode from hn]
      rfl
    · rw [hfacts.2.2.1]
    · rw [hfacts.2.2.2]
  · intro hkeys
    simp only [Freedom.go]
    rw [hn]
    dsimp only
    rw [if_pos ⟨⟨hk, hl, hc⟩, hkeys⟩]

namespace Freedom

/-- `makePlayer()`'s values (lines 218–253) restricted to the embedded
fields. -/
def fplayer0 : FPlayer :=
  { x := ROOM_W * (5/10), y := ROOM_H * (65/100), vx := 0, vy := 0, r := 26/5,
    hp := 100, hpMax := 100, shield := 35, shieldMax := 35, shieldDelay := 0,
    invT := 0, dashCD := 0, dashT := 0, rollIframes := 12/100, speed := 95 }

def nodeW : FNode :=
  { x := 0, y := 0, kind := "normal", cleared := false, seen := true,
    locked := false }

/-- A locked, uncleared treasure node east of the start. -/
def nextW : FNode :=
  { x := 1, y := 0, kind := "treasure", cleared := false, seen := false,
    locked := true }

/-- A concrete world: start node at the origin, a locked treasure room at
`(1, 0)`, one key in hand, and an invulnerability timer running. -/
def fstW : St :=
  { mode := "play", floor := 1, score := 0, money := 0, keys := 1,
    roomId := (0, 0), nodes := [((0, 0), nodeW), ((1, 0), nextW)],
    edges := [], rooms := [], enemies := [], bullets := [], pickups := [],
    fx := [], decals := [], cam := ⟨0, 0, 0, 0⟩, msg := "", msgT := 0,
    bossAlive := false, player := { fplayer0 with invT := 1 } }

end Freedom

theorem freedom_treasure_key_gate_witness :
    (Freedom.go Freedom.fstW Freedom.nodeW (1, 0) Js.Dir.E [0]).1.keys = 0
    ∧ Freedom.fstW.keys = 1 := by
  have h := freedom_treasure_key_gate Freedom.fstW Freedom.nodeW Freedom.nextW
    (1, 0) Js.Dir.E [0] rfl rfl rfl rfl
  refine ⟨?_, rfl⟩
  rw [(h.1 (by decide)).1]
  decide

/-- C10: the player-damage routines are total no-ops while the
invulnerability timer is positive — `hurtPlayer` in n.mjs returns the state
unchanged (no hp loss, no shake, no death), and `damagePlayer` in the
FREEDOM program returns the state and the untouched random stream (no hp or
shield deduction, no i-frame reset, no knockback, no sparks, no game over). -/
theorem player_damage_noop_when_invulnerable
    (M : Js.JsMath) (s : Nmjs.St) (dmg : ℚ)
    (fs : Freedom.St) (fdmg : ℚ) (src : Option (ℚ × ℚ)) (r : List ℚ)
    (h1 : 0 < s.player.invT) (h2 : 0 < fs.player.invT) :
    Nmjs.hurtPlayer s dmg = s
    ∧ Freedom.damagePlayer M fs fdmg src r = (fs, r) := by
  constructor
  · unfold Nmjs.hurtPlayer
    rw [if_pos h1]
  · unfold Freedom.damagePlayer
    rw [if_pos h2]

def stInv : Nmjs.St :=
  { Nmjs.st0 with player := { Nmjs.player0 with invT := 1 } }

theorem player_damage_noop_when_invulnerable_witness :
    Nmjs.hurtPlayer stInv 3 = stInv
    ∧ Freedom.damagePlayer Nmjs.M0 Freedom.fstW 5 none [0]
        = (Freedom.fstW, [0]) :=
  player_damage_noop_when_invulnerable Nmjs.M0 stInv 3 Freedom.fstW 5 none [0]
    (by norm_num [stInv, Nmjs.player0]) (by norm_num [Freedom.fstW, Freedom.fplayer0])

namespace PartZero

/-!
Shallow embedding of `src/unnamed/part_000` (the push-through-doorway shop
variant with room caching).  Constants: `TILE = 24`, `ROOM_TW = 21`,
`ROOM_TH = 13`, so `ROOM_W = 504`, `ROOM_H = 312`; `MAX_DEPTH = 10`.  Its
`isShopCoord` (lines 178–187) is textually the same as `Ring.isShopCoord`.
-/

def ROOM_W : ℚ := 504
def ROOM_H : ℚ := 312

structure Node0 where
  x : ℤ
  y : ℤ
  depth : ℕ
  kind : String
  seen : Bool
  cleared : Bool
  locked : Bool
deriving DecidableEq

structure Enemy0 where
  etype : String
  x : ℚ
  y : ℚ
  r : ℚ
  hp : ℚ
  vx : ℚ
  vy : ℚ
  t : ℚ
  fireCD : ℚ
deriving DecidableEq

structure Pickup0 where
  x : ℚ
  y : ℚ
  t : String
  v : ℚ
  r : ℚ
deriving DecidableEq

structure Decal0 where
  x : ℚ
  y : ℚ
  r : ℚ
  t : ℚ
  kind : String
deriving DecidableEq

structure Bullet0 where
  x : ℚ
  y : ℚ
  vx : ℚ
  vy : ℚ
  r : ℚ
  t : ℚ
  dmg : ℚ
  src : String
  kind : String
deriving DecidableEq

structure Fx0 where
  x : ℚ
  y : ℚ
  vx : ℚ
  vy : ℚ
  t : ℚ
  c : ℚ
deriving DecidableEq

/-- The `__cache` object written by `stashRoom` (lines 371–379). -/
structure Cache where
  enemies : List Enemy0
  pickups : List Pickup0
  decals : List Decal0
deriving DecidableEq

structure Room0 where
  g : List ℕ
  doorsOpen : Js.Doors
  neighbors : Js.Doors
  cache : Option Cache
deriving DecidableEq

structure Cam0 where
  x : ℚ
  y : ℚ
  shake : ℚ
  shakeT : ℚ
deriving DecidableEq

structure St where
  paused : Bool
  shopOpen : Bool
  msg : String
  msgT : ℚ
  keys : ℚ
  coins : ℚ
  roomId : ℤ × ℤ
  cam : Cam0
  map : List ((ℤ × ℤ) × Node0)
  rooms : List ((ℤ × ℤ) × Room0)
  enemies : List Enemy0
  bullets : List Bullet0
  pickups : List Pickup0
  fx : List Fx0
  decals : List Decal0
deriving DecidableEq

/-- `shallowClone(o)` (lines 423–427) copies every own field into a new flat
object; the cached records hold only scalar fields, so the copy is the value
itself. -/
def shallowClone {α : Type} (o : α) : α := o

/-- `cloneArray(arr)` (lines 418–422). -/
def cloneArray {α : Type} (arr : List α) : List α :=
  arr.map shallowClone

def freshNode0 (id : ℤ × ℤ) : Node0 :=
  { x := id.1, y := id.2, depth := id.1.natAbs + id.2.natAbs,
    kind := "combat", seen := false, cleared := false, locked := false }

/-- `ensureNode(id)` (lines 144–158). -/
def ensureNode (s : St) (id : ℤ × ℤ) : St :=
  match Js.alookup s.map id with
  | some _ => s
  | none => { s with map := (id, freshNode0 id) :: s.map }

def freshRoom0 : Room0 :=
  { g := [], doorsOpen := ⟨true, true, true, true⟩,
    neighbors := ⟨false, false, false, false⟩, cache := none }

/-- `ensureRoom(id)` (lines 161–172): fresh rooms open all doors, have no
neighbors and an empty `__cache`. -/
def ensureRoom (s : St) (id : ℤ × ℤ) : St :=
  match Js.alookup s.rooms id with
  | some _ => s
  | none => { s with rooms := (id, freshRoom0) :: s.rooms }

def nodeAt (s : St) (id : ℤ × ℤ) : Node0 :=
  (Js.alookup s.map id).getD (freshNode0 id)

def roomAt (s : St) (id : ℤ × ℤ) : Room0 :=
  (Js.alookup s.rooms id).getD freshRoom0

def tileIndex (tx ty : ℕ) : ℕ := ty * 21 + tx

/-- The wall/floor base grid (lines 196–201). -/
def baseGrid0 : List ℕ :=
  (List.range (21 * 13)).map (fun i =>
    if i % 21 = 0 ∨ i / 21 = 0 ∨ i % 21 = 20 ∨ i / 21 = 12 then 0 else 1)

/-- Combat-room pit scattering (lines 206–211): 26 tries. -/
def pits0 (g : List ℕ) (r : List ℚ) : List ℕ × List ℚ :=
  (List.range 26).foldl (fun gr _ =>
    let (px, r) := Js.randi 17 gr.2
    let (py, r) := Js.randi 9 r
    let (c, r) := Js.chance (25/100) r
    (if c then gr.1.set (tileIndex (2 + px) (2 + py)) 2 else gr.1, r)) (g, r)

/-- Pillar scattering (lines 214–220). -/
def pillars0 (density : ℚ) (g : List ℕ) (r : List ℚ) : List ℕ × List ℚ :=
  (List.range 9).foldl (fun gr yi =>
    (List.range 17).foldl (fun gr xi =>
      if gr.1.getD (tileIndex (2 + xi) (2 + yi)) 0 = 1 then
        let (c, r) := Js.chance density gr.2
        (if c then gr.1.set (tileIndex (2 + xi) (2 + yi)) 4 else gr.1, r)
      else gr) gr) (g, r)

def clearCenter0 (g : List ℕ) : List ℕ :=
  (List.range 3).foldl (fun g yi =>
    (List.range 3).foldl (fun g xi =>
      g.set (tileIndex (9 + xi) (5 + yi)) 1) g) g

def carveDoor0 (g : List ℕ) : Js.Dir → List ℕ
| Js.Dir.N => (g.set (tileIndex 10 0) 1).set (tileIndex 10 1) 3
| Js.Dir.S => (g.set (tileIndex 10 12) 1).set (tileIndex 10 11) 3
| Js.Dir.W => (g.set (tileIndex 0 6) 1).set (tileIndex 1 6) 3
| Js.Dir.E => (g.set (tileIndex 20 6) 1).set (tileIndex 19 6) 3

/-- `genRoomTiles(node)` (lines 191–239). -/
def genRoomTiles (s : St) (id : ℤ × ℤ) (r : List ℚ) : St × List ℚ :=
  let s := ensureRoom s id
  let kind := (nodeAt s id).kind
  let gr1 := if kind = "combat" then pits0 baseGrid0 r else (baseGrid0, r)
  let gr2 := pillars0 (if kind = "combat" then 55/1000 else 3/100) gr1.1 gr1.2
  let g := clearCenter0 gr2.1
  let room := roomAt s id
  let g := if room.neighbors.n then carveDoor0 g Js.Dir.N else g
  let g := if room.neighbors.s then carveDoor0 g Js.Dir.S else g
  let g := if room.neighbors.w then carveDoor0 g Js.Dir.W else g
  let g := if room.neighbors.e then carveDoor0 g Js.Dir.E else g
  let roomsG := Js.amap s.rooms id (fun rm => { rm with g := g })
  ({ s with rooms := roomsG }, gr2.2)

/-- The `link` closure of `buildNeighborsAround` (lines 289–296);
`MAX_DEPTH = 10`. -/
def link0 (s : St) (id nid : ℤ × ℤ) (dirA dirB : Js.Dir) : St :=
  if 10 < nid.1.natAbs + nid.2.natAbs then s
  else
    let roomsA := Js.amap s.rooms id
      (fun rm => { rm with neighbors := rm.neighbors.setD dirA true })
    let s := { s with rooms := roomsA }
    let s := ensureNode s nid
    let s := ensureRoom s nid
    let roomsB := Js.amap s.rooms nid
      (fun rm => { rm with neighbors := rm.neighbors.setD dirB true })
    { s with rooms := roomsB }

/-- `buildNeighborsAround(id)` (lines 283–305). -/
def buildNeighborsAround (s : St) (id : ℤ × ℤ) (r : List ℚ) : St × List ℚ :=
  let s := ensureNode s id
  let s := ensureRoom s id
  let x := (nodeAt s id).x
  let y := (nodeAt s id).y
  let s := link0 s id (x, y - 1) Js.Dir.N Js.Dir.S
  let s := link0 s id (x, y + 1) Js.Dir.S Js.Dir.N
  let s := link0 s id (x - 1, y) Js.Dir.W Js.Dir.E
  let s := link0 s id (x + 1, y) Js.Dir.E Js.Dir.W
  genRoomTiles s id r

/-- `lockDoors(room, locked)` (lines 348–353). -/
def lockDoors (rm : Room0) (locked : Bool) : Room0 :=
  { rm with doorsOpen := ⟨!locked, !locked, !locked, !locked⟩ }

/-- `spawnEnemy(type, x, y, depth)` (lines 356–368). -/
def spawnEnemy (s : St) (etype : String) (x y : ℚ) (depth : ℕ) : St :=
  let hpBase : ℚ := if etype = "shooter" then 6 else 5
  { s with enemies := s.enemies ++
      [{ etype := etype, x := x, y := y, r := 10,
         hp := hpBase + ((depth / 3 : ℕ) : ℚ),
         vx := 0, vy := 0, t := 0, fireCD := 0 }] }

/-- The enemy loop of `spawnRoomContents` (lines 336–341). -/
def spawnLoop (depth : ℕ) : St → ℕ → List ℚ → St × List ℚ
| s, 0, r => (s, r)
| s, n + 1, r =>
    let (v1, r) := Js.randf r
    let (v2, r) := Js.randf r
    let (c, r) := Js.chance (25/100) r
    spawnLoop depth (spawnEnemy s (if c then "shooter" else "chaser")
      (60 + v1 * (ROOM_W - 120)) (60 + v2 * (ROOM_H - 120)) depth) n r

/-- `spawnRoomContents(roomId)` (lines 307–346). -/
def spawnRoomContents (s : St) (id : ℤ × ℤ) (r : List ℚ) : St × List ℚ :=
  let s := ensureNode s id
  let s := ensureRoom s id
  let mapK := Js.amap s.map id (fun n =>
    { n with kind :=
        if id.1 = 0 ∧ id.2 = 0 then "start"
        else if Ring.isShopCoord n.x n.y then "shop"
        else "combat" })
  let s := { s with map := mapK }
  let node := nodeAt s id
  let s := { s with enemies := [], bullets := [], pickups := [], fx := [],
                    decals := [] }
  if node.kind = "shop" ∨ node.kind = "start" then
    let mapC := Js.amap s.map id (fun n => { n with cleared := true })
    let s := { s with map := mapC }
    let roomsO := Js.amap s.rooms id (fun rm => lockDoors rm false)
    let s := { s with rooms := roomsO }
    if node.kind = "start" then
      ({ s with pickups := s.pickups ++
          [{ x := ROOM_W/2 + 44, y := ROOM_H/2, t := "coin", v := 3, r := 7 }] }, r)
    else (s, r)
  else if node.cleared = false then
    let sr := spawnLoop node.depth s
      (4 + (Js.randi 4 r).1 + (if 4 < node.depth then 1 else 0)) (Js.randi 4 r).2
    let roomsL := Js.amap sr.1.rooms id (fun rm => lockDoors rm true)
    ({ sr.1 with rooms := roomsL }, sr.2)
  else
    let roomsO := Js.amap s.rooms id (fun rm => lockDoors rm false)
    ({ s with rooms := roomsO }, r)

/-- `stashRoom(roomId)` (lines 371–379): overwrite the room's `__cache` with
shallow clones of the live enemy/pickup/decal lists. -/
def stashRoom (s : St) (id : ℤ × ℤ) : St :=
  match Js.alookup s.rooms id with
  | none => s
  | some _ =>
      let c : Cache :=
        ⟨cloneArray s.enemies, cloneArray s.pickups, cloneArray s.decals⟩
      let roomsC := Js.amap s.rooms id (fun rm => { rm with cache := some c })
      { s with rooms := roomsC }

/-- `loadRoom(roomId)`, lines 381–399: ensure room/node, set the node kind
early, rebuild neighbors and tiles, and clear the live arrays. -/
def loadRoomPre (s : St) (id : ℤ × ℤ) (r : List ℚ) : St × List ℚ :=
  let s := ensureRoom s id
  let s := ensureNode s id
  let mapK := Js.amap s.map id (fun n =>
    { n with kind :=
        if id.1 = 0 ∧ id.2 = 0 then "start"
        else if Ring.isShopCoord n.x n.y then "shop"
        else if n.kind = "" then "combat" else n.kind })
  let s := { s with map := mapK }
  let b := buildNeighborsAround s id r
  let g2 := genRoomTiles b.1 id b.2
  ({ g2.1 with enemies := [], bullets := [], pickups := [], fx := [],
               decals := [] }, g2.2)

/-- `loadRoom(roomId)`, lines 407–415: re-lock doors for uncleared combat,
mark the node seen, close the shop UI. -/
def loadRoomPost (s : St) (id : ℤ × ℤ) (r : List ℚ) : St × List ℚ :=
  let s :=
    if (nodeAt s id).cleared = false ∧ (nodeAt s id).kind = "combat" then
      let roomsL := Js.amap s.rooms id (fun rm => lockDoors rm true)
      { s with rooms := roomsL }
    else
      let roomsO := Js.amap s.rooms id (fun rm => lockDoors rm false)
      { s with rooms := roomsO }
  let mapS := Js.amap s.map id (fun n => { n with seen := true })
  let s := { s with map := mapS }
  ({ s with shopOpen := false }, r)

/-- `loadRoom(roomId)` (lines 381–416): rebuild neighbors/tiles, clear the
live lists, then restore the cache verbatim if present (else populate), and
re-lock doors for uncleared combat. -/
def loadRoom (s : St) (id : ℤ × ℤ) (r : List ℚ) : St × List ℚ :=
  let p := loadRoomPre s id r
  let res :=
    match (roomAt p.1 id).cache with
    | some c =>
        ({ p.1 with enemies := cloneArray c.enemies,
                    pickups := cloneArray c.pickups,
                    decals := cloneArray c.decals }, p.2)
    | none => spawnRoomContents p.1 id p.2
  loadRoomPost res.1 id res.2

end PartZero

namespace PartZero

/-- The `__cache` field of room `id`, read through the dictionary. -/
def cacheAt (s : St) (id : ℤ × ℤ) : Option Cache :=
  (Js.alookup s.rooms id).bind (fun rm => rm.cache)

theorem cloneArray_eq {α : Type} (l : List α) : cloneArray l = l := by
  induction l with
  | nil => rfl
  | cons a t ih =>
      show shallowClone a :: cloneArray t = a :: t
      rw [ih]
      rfl

theorem bindCache_amap (l : List ((ℤ × ℤ) × Room0)) (k id : ℤ × ℤ)
    (f : Room0 → Room0) (hf : ∀ rm, (f rm).cache = rm.cache) :
    (Js.alookup (Js.amap l k f) id).bind (fun rm => rm.cache)
      = (Js.alookup l id).bind (fun rm => rm.cache) := by
  rw [Js.alookup_amap]
  by_cases hk : id = k
  · rw [if_pos hk, hk]
    cases Js.alookup l k <;> simp [hf]
  · rw [if_neg hk]

theorem cacheAt_ensureNode (s : St) (k id : ℤ × ℤ) :
    cacheAt (ensureNode s k) id = cacheAt s id := by
  unfold ensureNode
  cases Js.alookup s.map k <;> rfl

theorem cacheAt_ensureRoom (s : St) (k id : ℤ × ℤ) :
    cacheAt (ensureRoom s k) id = cacheAt s id := by
  unfold ensureRoom
  cases hl : Js.alookup s.rooms k
  · unfold cacheAt
    dsimp only
    by_cases hk : k = id
    · subst hk
      simp [Js.alookup, hl, freshRoom0]
    · simp [Js.alookup, hk]
  · rfl

theorem cacheAt_setMap (s : St) (m : List ((ℤ × ℤ) × Node0)) (id : ℤ × ℤ) :
    cacheAt { s with map := m } id = cacheAt s id := rfl

theorem cacheAt_clearLive (s : St) (id : ℤ × ℤ) :
    cacheAt { s with enemies := [], bullets := [], pickups := [], fx := [],
                     decals := [] } id = cacheAt s id := rfl

theorem cacheAt_setNeighbors (s : St) (k id : ℤ × ℤ) (d : Js.Dir) (b : Bool) :
    cacheAt { s with
      rooms := Js.amap s.rooms k (fun rm => { rm with neighbors := Js.Doors.setD rm.neighbors d b }) } id
      = cacheAt s id :=
  bindCache_amap s.rooms k id _ (fun _ => rfl)

theorem cacheAt_setG (s : St) (k id : ℤ × ℤ) (g : List ℕ) :
    cacheAt { s with
      rooms := Js.amap s.rooms k (fun rm => { rm with g := g }) } id = cacheAt s id :=
  bindCache_amap s.rooms k id _ (fun _ => rfl)

theorem cacheAt_lockAmap (s : St) (k id : ℤ × ℤ) (b : Bool) :
    cacheAt { s with
      rooms := Js.amap s.rooms k (fun rm => lockDoors rm b) } id = cacheAt s id :=
  bindCache_amap s.rooms k id _ (fun _ => rfl)

theorem cacheAt_link0 (s : St) (id nid id2 : ℤ × ℤ) (dA dB : Js.Dir) :
    cacheAt (link0 s id nid dA dB) id2 = cacheAt s id2 := by
  unfold link0
  by_cases h : 10 < nid.1.natAbs + nid.2.natAbs
  · rw [if_pos h]
  · rw [if_neg h]
    dsimp only
    rw [cacheAt_setNeighbors, cacheAt_ensureRoom, cacheAt_ensureNode,
        cacheAt_setNeighbors]

theorem cacheAt_genRoomTiles (s : St) (id id2 : ℤ × ℤ) (r : List ℚ) :
    cacheAt (genRoomTiles s id r).1 id2 = cacheAt s id2 := by
  unfold genRoomTiles
  dsimp only
  rw [cacheAt_setG, cacheAt_ensureRoom]

theorem cacheAt_buildNeighborsAround (s : St) (id id2 : ℤ × ℤ) (r : List ℚ) :
    cacheAt (buildNeighborsAround s id r).1 id2 = cacheAt s id2 := by
  unfold buildNeighborsAround
  dsimp only
  rw [cacheAt_genRoomTiles, cacheAt_link0, cacheAt_link0, cacheAt_link0,
      cacheAt_link0, cacheAt_ensureRoom, cacheAt_ensureNode]

theorem cacheAt_stashRoom_self (s : St) (id : ℤ × ℤ)
    (h : (Js.alookup s.rooms id).isSome = true) :
    cacheAt (stashRoom s id) id = some ⟨s.enemies, s.pickups, s.decals⟩ := by
  unfold stashRoom
  cases hl : Js.alookup s.rooms id
  · rw [hl] at h
    simp at h
  · dsimp only
    unfold cacheAt
    dsimp only
    rw [Js.alookup_amap_self, hl]
    simp [cloneArray_eq]

theorem roomAt_cache_of_cacheAt (s : St) (id : ℤ × ℤ) (c : Cache)
    (h : cacheAt s id = some c) : (roomAt s id).cache = some c := by
  unfold cacheAt at h
  unfold roomAt
  cases hl : Js.alookup s.rooms id
  · rw [hl] at h
    simp at h
  · rw [hl] at h
    simpa using h

end PartZero

namespace PartZero

theorem cacheAt_loadRoomPre (s : St) (id id2 : ℤ × ℤ) (r : List ℚ) :
    cacheAt (loadRoomPre s id r).1 id2 = cacheAt s id2 := by
  unfold loadRoomPre
  dsimp only
  rw [cacheAt_clearLive, cacheAt_genRoomTiles, cacheAt_buildNeighborsAround,
      cacheAt_setMap, cacheAt_ensureNode, cacheAt_ensureRoom]

theorem loadRoomPost_live (s : St) (id : ℤ × ℤ) (r : List ℚ) :
    (loadRoomPost s id r).1.enemies = s.enemies
    ∧ (loadRoomPost s id r).1.pickups = s.pickups
    ∧ (loadRoomPost s id r).1.decals = s.decals := by
  unfold loadRoomPost
  by_cases hif : (nodeAt s id).cleared = false ∧ (nodeAt s id).kind = "combat"
  · rw [if_pos hif]
    exact ⟨rfl, rfl, rfl⟩
  · rw [if_neg hif]
    exact ⟨rfl, rfl, rfl⟩

theorem loadRoom_restores (s2 : St) (id : ℤ × ℤ) (r : List ℚ) (c : Cache)
    (h : cacheAt s2 id = some c) :
    (loadRoom s2 id r).1.enemies = c.enemies
    ∧ (loadRoom s2 id r).1.pickups = c.pickups
    ∧ (loadRoom s2 id r).1.decals = c.decals := by
  unfold loadRoom
  dsimp only
  have hc : (roomAt (loadRoomPre s2 id r).1 id).cache = some c :=
    roomAt_cache_of_cacheAt _ _ _ ((cacheAt_loadRoomPre s2 id id r).trans h)
  rw [hc]
  dsimp only
  have hfin := loadRoomPost_live
    { (loadRoomPre s2 id r).1 with
        enemies := cloneArray c.enemies, pickups := cloneArray c.pickups, decals := cloneArray c.decals }
    id (loadRoomPre s2 id r).2
  simpa [cloneArray_eq] using hfin

end PartZero

namespace PartZero

/-- A concrete state with one room, one live enemy, one pickup and one decal. -/
def stW : St :=
  { paused := false, shopOpen := false, msg := "", msgT := 0, keys := 0,
    coins := 0, roomId := (5, 0), cam := ⟨0, 0, 0, 0⟩, map := [],
    rooms := [((5, 0), freshRoom0)],
    enemies := [{ etype := "chaser", x := 100, y := 80, r := 10, hp := 5, vx := 0, vy := 0, t := 0, fireCD := 0 }],
    bullets := [],
    pickups := [{ x := 50, y := 60, t := "coin", v := 1, r := 7 }],
    fx := [],
    decals := [{ x := 70, y := 70, r := 4, t := 1, kind := "scorch" }] }

end PartZero

/-- C4: part_000's cache round-trip. If `stashRoom` records a room's live
enemy/pickup/decal lists on leaving, and the room's `__cache` entry is the
same at re-entry time as `stashRoom` left it (no intervening simulation of
that room touched it), then `loadRoom` restores exactly the enemy, pickup
and decal lists that were live when the room was left. -/
theorem part0_cache_roundtrip (s s2 : PartZero.St) (id : ℤ × ℤ) (r : List ℚ)
    (hroom : (Js.alookup s.rooms id).isSome = true)
    (h : PartZero.cacheAt s2 id = PartZero.cacheAt (PartZero.stashRoom s id) id) :
    (PartZero.loadRoom s2 id r).1.enemies = s.enemies
    ∧ (PartZero.loadRoom s2 id r).1.pickups = s.pickups
    ∧ (PartZero.loadRoom s2 id r).1.decals = s.decals :=
  PartZero.loadRoom_restores s2 id r ⟨s.enemies, s.pickups, s.decals⟩
    (h.trans (PartZero.cacheAt_stashRoom_self s id hroom))

/-- Witness for C4: stash the concrete state's room `(5, 0)`, re-enter it,
and get back the same enemy, pickup and decal lists. -/
theorem part0_cache_roundtrip_witness :
    (Js.alookup PartZero.stW.rooms (5, 0)).isSome = true
    ∧ ((PartZero.loadRoom (PartZero.stashRoom PartZero.stW (5, 0)) (5, 0) []).1.enemies
          = PartZero.stW.enemies
       ∧ (PartZero.loadRoom (PartZero.stashRoom PartZero.stW (5, 0)) (5, 0) []).1.pickups
          = PartZero.stW.pickups
       ∧ (PartZero.loadRoom (PartZero.stashRoom PartZero.stW (5, 0)) (5, 0) []).1.decals
          = PartZero.stW.decals) :=
  ⟨by decide,
    part0_cache_roundtrip PartZero.stW (PartZero.stashRoom PartZero.stW (5, 0))
      (5, 0) [] (by decide) rfl⟩
